import Mathlib

/-!
# Verification of the SEI hub/spoke content pipeline (`sei_unified.py`)

Shallow embedding of the core logic of the SEI v6.2.3 unified system:
keyword-driven hub/spoke page creation (decision engine + cluster builder),
content versioning and quality gates, brand-compliance sanitization, internal
link injection, and the Webflow publisher with its circuit breaker.

Strings are modelled as Lean `String`s (lists of `Char`); all text operations
(`str.lower`, `str.title`, `str.replace`, substring membership, `str.split`)
are embedded for the ASCII fragment the system manipulates.  The Supabase
tables behind the page registry are modelled as in-memory lists with a
fresh-id counter; a database write never fails in the model (the Python
`try/except` fallbacks for transport errors are out of scope).
-/

namespace SEI

/-! ## Python string primitives (ASCII fragment) -/

/-- ASCII lower-casing of one character, as `str.lower` acts on ASCII. -/
def lowerChar (c : Char) : Char :=
  if 'A' ≤ c ∧ c ≤ 'Z' then Char.ofNat (c.toNat + 32) else c

/-- ASCII upper-casing of one character, as `str.upper` acts on ASCII. -/
def upperChar (c : Char) : Char :=
  if 'a' ≤ c ∧ c ≤ 'z' then Char.ofNat (c.toNat - 32) else c

def isAsciiAlpha (c : Char) : Bool :=
  ('a' ≤ c ∧ c ≤ 'z') ∨ ('A' ≤ c ∧ c ≤ 'Z')

/-- `str.lower` (ASCII). -/
def pyLower (s : String) : String := ⟨s.data.map lowerChar⟩

/-- Helper for `pyTitle`: the Boolean records whether the previous character
was cased (alphabetic), in which case a following letter is lower-cased,
otherwise upper-cased — the semantics of Python `str.title` on ASCII text. -/
def titleAux : Bool → List Char → List Char
  | _, [] => []
  | prevCased, c :: cs =>
    (if isAsciiAlpha c then (if prevCased then lowerChar c else upperChar c) else c)
      :: titleAux (isAsciiAlpha c) cs

/-- `str.title` (ASCII): first letter of every alphabetic run upper-cased,
the rest lower-cased. -/
def pyTitle (s : String) : String := ⟨titleAux false s.data⟩

/-- Fuel-driven worker for `replaceAllL`; the fuel (initially the subject's
length) makes the recursion structural, so proofs can evaluate it. -/
def replaceAllGo (pat rep : List Char) : Nat → List Char → List Char
  | 0, s => s
  | _ + 1, [] => []
  | fuel + 1, c :: cs =>
    if pat ≠ [] ∧ pat.isPrefixOf (c :: cs) then
      rep ++ replaceAllGo pat rep fuel ((c :: cs).drop pat.length)
    else
      c :: replaceAllGo pat rep fuel cs

/-- Replace all non-overlapping occurrences of `pat` (nonempty) in the
subject, scanning left to right — the core of Python `str.replace`. -/
def replaceAllL (pat rep s : List Char) : List Char :=
  replaceAllGo pat rep s.length s

/-- Python `s.replace(pat, rep)`, including the degenerate empty-pattern
behaviour (`rep` interspersed between all characters). -/
def pyReplace (s pat rep : String) : String :=
  if pat.data = [] then
    ⟨rep.data ++ s.data.flatMap (fun c => [c] ++ rep.data)⟩
  else
    ⟨replaceAllL pat.data rep.data s.data⟩

/-- Substring membership on character lists (Python `pat in s`). -/
def containsL (pat : List Char) : List Char → Bool
  | [] => pat.isEmpty
  | c :: cs => pat.isPrefixOf (c :: cs) || containsL pat cs

/-- Python `pat in s`. -/
def pyContains (s pat : String) : Bool := containsL pat.data s.data

/-- Whitespace for Python `str.split()` with no argument (ASCII fragment). -/
def isPyWhitespace (c : Char) : Bool :=
  c = ' ' ∨ c = '\n' ∨ c = '\t' ∨ c = '\r' ∨ c = '\x0b' ∨ c = '\x0c'

/-- Helper for `countWords`: the Boolean records whether we are inside a
word (a maximal run of non-whitespace characters). -/
def countWordsAux : Bool → List Char → Nat
  | _, [] => 0
  | inWord, c :: cs =>
    if isPyWhitespace c then countWordsAux false cs
    else (if inWord then 0 else 1) + countWordsAux true cs

/-- `len(s.split())`: the number of whitespace-separated tokens. -/
def countWords (s : String) : Nat := countWordsAux false s.data

/-! ## Brand compliance (`BANNED_PHRASES`, `check_brand_compliance`,
`sanitize_brand_content`) -/

/-- The `BANNED_PHRASES` constant of `sei_unified.py`. -/
def BANNED_PHRASES : List String :=
  ["our lending", "we offer loans", "we fund", "our rates", "we approve",
   "our financing", "we provide financing", "our loan products", "we lend",
   "get approved by us", "our underwriting", "we finance", "our loans"]

/-- `check_brand_compliance(text)`: lower-case the text and collect every
banned phrase occurring in it; compliant iff no violations. -/
def check_brand_compliance (text : String) : Bool × List String :=
  if text = "" then (true, [])
  else
    let violations := BANNED_PHRASES.filter (fun p => pyContains (pyLower text) p)
    (violations.length = 0, violations)

/-- The `replacements` table inside `sanitize_brand_content`. -/
def brandReplacements : List (String × String) :=
  [("our lending", "lending partners in our network"),
   ("our financing", "financing options through our partners"),
   ("we offer loans", "our lending partners offer"),
   ("we fund", "our lending partners fund"),
   ("our rates", "rates from our lending partners"),
   ("we approve", "our lending partners approve"),
   ("we lend", "our lending partners provide"),
   ("our loan products", "loan products from our partners"),
   ("we provide financing", "our partners provide financing"),
   ("our underwriting", "underwriting by our lending partners"),
   ("we finance", "our lending partners finance"),
   ("our loans", "loans from our lending partners"),
   ("get approved by us", "get approved by our lending partners")]

/-- `sanitize_brand_content(text)`: for each `(old, new)` pair, replace the
literal lower-case phrase and then its `str.title()` variant. -/
def sanitize_brand_content (text : String) : String :=
  if text = "" then text
  else
    brandReplacements.foldl
      (fun t p => pyReplace (pyReplace t p.1 p.2) (pyTitle p.1) (pyTitle p.2))
      text

/-! ## Content documents

A generated content document is a Python dict whose values are either strings
or FAQ lists; after the sanitization pass each FAQ item is exactly a
`{"q": ..., "a": ...}` dict, which we model as a pair. -/

inductive FieldVal where
  | str (s : String)
  | faqList (items : List (String × String))
deriving DecidableEq

/-- A content document: insertion-ordered dict from field name to value. -/
abbrev Content := List (String × FieldVal)

/-- `content.get(k)` (first binding wins, as keys are unique in a dict). -/
def getField (c : Content) (k : String) : Option FieldVal :=
  (c.find? (fun kv => kv.1 = k)).map (fun kv => kv.2)

/-- Python dict assignment `c[k] = v`: overwrite in place, else append. -/
def setField : Content → String → FieldVal → Content
  | [], k, v => [(k, v)]
  | (k', v') :: rest, k, v =>
    if k' = k then (k', v) :: rest else (k', v') :: setField rest k v

/-! ## `json.dumps` (default options, `ensure_ascii=True`) -/

/-- Lower-case hexadecimal digit, as produced by `json.dumps` escapes. -/
def hexDigit (n : Nat) : Char :=
  if n < 10 then Char.ofNat (48 + n) else Char.ofNat (87 + n)

def hex4 (n : Nat) : List Char :=
  [hexDigit (n / 4096 % 16), hexDigit (n / 256 % 16),
   hexDigit (n / 16 % 16), hexDigit (n % 16)]

/-- Escape one character as `json.dumps` does with `ensure_ascii=True`:
short escapes for the common control characters, `\uXXXX` (surrogate pairs
above the BMP) for everything outside printable ASCII. -/
def jsonEscapeChar (c : Char) : List Char :=
  if c = '"' then ['\\', '"']
  else if c = '\\' then ['\\', '\\']
  else if c = '\n' then ['\\', 'n']
  else if c = '\t' then ['\\', 't']
  else if c = '\r' then ['\\', 'r']
  else if c = '\x08' then ['\\', 'b']
  else if c = '\x0c' then ['\\', 'f']
  else if 32 ≤ c.toNat ∧ c.toNat ≤ 126 then [c]
  else if c.toNat ≤ 65535 then '\\' :: 'u' :: hex4 c.toNat
  else
    let n := c.toNat - 65536
    ('\\' :: 'u' :: hex4 (55296 + n / 1024)) ++ ('\\' :: 'u' :: hex4 (56320 + n % 1024))

/-- `json.dumps` of a string. -/
def jsonDumpStr (s : String) : String :=
  ⟨'"' :: s.data.flatMap jsonEscapeChar ++ ['"']⟩

/-- `json.dumps` of one FAQ item `{"q": ..., "a": ...}`. -/
def jsonDumpFaqItem (item : String × String) : String :=
  "\x7b\"q\": " ++ jsonDumpStr item.1 ++ ", \"a\": " ++ jsonDumpStr item.2 ++ "\x7d"

def jsonDumpVal : FieldVal → String
  | .str s => jsonDumpStr s
  | .faqList items => "[" ++ String.intercalate ", " (items.map jsonDumpFaqItem) ++ "]"

/-- `json.dumps(content)` with the default separators `(", ", ": ")`. -/
def jsonDumps (c : Content) : String :=
  "\x7b" ++
    String.intercalate ", " (c.map (fun kv => jsonDumpStr kv.1 ++ ": " ++ jsonDumpVal kv.2)) ++
  "\x7d"

/-- Python `repr` of a list of strings, as interpolated by
`f"brand_violations: {violations}"` (no phrase contains a quote). -/
def pyListRepr (l : List String) : String :=
  "[" ++ String.intercalate ", " (l.map (fun s => "\x27" ++ s ++ "\x27")) ++ "]"

/-! ## Quality gates (`validate_quality_gates`) -/

structure QualityGateResult where
  passed : Bool
  failures : List String
  word_count : Nat
  faq_count : Nat
  source_count : Nat
deriving DecidableEq

/-- The word-count loop of `validate_quality_gates`: every string field
contributes `len(value.split())`, every list field contributes the word
counts of its items' `q`/`a` entries. -/
def gateWordCount (c : Content) : Nat :=
  (c.map (fun kv =>
    match kv.2 with
    | .str s => countWords s
    | .faqList items => (items.map (fun it => countWords it.1 + countWords it.2)).sum)).sum

/-- `len(content.get('faq', []))`. -/
def faqCount (c : Content) : Nat :=
  match getField c "faq" with
  | none => 0
  | some (.faqList items) => items.length
  | some (.str s) => s.data.length

/-- `validate_quality_gates(content, sources, min_words, min_sources,
min_faqs)`. -/
def validate_quality_gates (content : Content) (sources : List String)
    (min_words : Nat := 800) (min_sources : Nat := 2) (min_faqs : Nat := 4) :
    QualityGateResult :=
  let word_count := gateWordCount content
  let faq_count := faqCount content
  let source_count := sources.length
  let failures : List String :=
    (if word_count < min_words then
      ["word_count (" ++ toString word_count ++ ") < " ++ toString min_words] else []) ++
    (if source_count < min_sources then
      ["sources (" ++ toString source_count ++ ") < " ++ toString min_sources] else []) ++
    (if faq_count < min_faqs then
      ["faqs (" ++ toString faq_count ++ ") < " ++ toString min_faqs] else []) ++
    (let compliance := check_brand_compliance (jsonDumps content)
     if compliance.1 then [] else ["brand_violations: " ++ pyListRepr compliance.2])
  { passed := failures.length = 0
    failures := failures
    word_count := word_count
    faq_count := faq_count
    source_count := source_count }

/-! ## Site configuration (environment defaults) -/

def SITE_DOMAIN : String := "equipflow.co"

def SITE_URL : String := "https://" ++ SITE_DOMAIN

/-- `ENABLE_SCHEMA` constant. -/
def ENABLE_SCHEMA : Bool := true

/-- `ENABLE_CONTENT_VERSIONING` constant. -/
def ENABLE_CONTENT_VERSIONING : Bool := true

/-- Python truthiness of an optional string (`if geo:`): `None` and the
empty string are falsy. -/
def optTruthy : Option String → Bool
  | none => false
  | some s => s ≠ ""

/-! ## Schema JSON-LD (`generate_schema_json`) -/

inductive Json where
  | str (s : String)
  | num (n : Nat)
  | obj (fields : List (String × Json))
  | arr (elems : List Json)

/-- The EquipFlow `Organization` object used by the article schema. -/
def organizationJson : Json :=
  .obj [("@type", .str "Organization"), ("name", .str "EquipFlow"), ("url", .str SITE_URL)]

/-- `generate_schema_json(...)`.  `datetime.now().strftime("%Y-%m-%d")` is
impure; the current date is passed in as the `today` parameter. -/
def generate_schema_json (seo_title meta_desc url_slug equipment_type : String)
    (geo : Option String) (faq_list : List (String × String))
    (hero_image_url : Option String) (today : String) : Json :=
  let page_url := SITE_URL ++ "/equipment/" ++ url_slug ++ "/"
  let faq_schema : Json :=
    .obj [("@context", .str "https://schema.org"), ("@type", .str "FAQPage"),
          ("mainEntity", .arr (faq_list.map (fun item =>
            .obj [("@type", .str "Question"), ("name", .str item.1),
                  ("acceptedAnswer",
                   .obj [("@type", .str "Answer"), ("text", .str item.2)])])))]
  let article_base : List (String × Json) :=
    [("@context", .str "https://schema.org"), ("@type", .str "Article"),
     ("headline", .str seo_title), ("description", .str meta_desc),
     ("author", organizationJson),
     ("publisher",
      .obj [("@type", .str "Organization"), ("name", .str "EquipFlow"),
            ("url", .str SITE_URL),
            ("logo", .obj [("@type", .str "ImageObject"),
                           ("url", .str (SITE_URL ++ "/logo.png"))])]),
     ("datePublished", .str today), ("dateModified", .str today),
     ("mainEntityOfPage", .obj [("@type", .str "WebPage"), ("@id", .str page_url)])]
  let article_schema : Json :=
    .obj (article_base ++
      match hero_image_url with
      | some url => [("image", .obj [("@type", .str "ImageObject"), ("url", .str url)])]
      | none => [])
  let service_schema : Json :=
    .obj [("@context", .str "https://schema.org"), ("@type", .str "Service"),
          ("name", .str (pyTitle equipment_type ++ " Financing")),
          ("description", .str meta_desc),
          ("provider", organizationJson),
          ("areaServed",
           .obj [("@type", .str "Place"),
                 ("name", .str (match geo with
                                | some g => if g ≠ "" then g else "United States"
                                | none => "United States"))]),
          ("serviceType", .str "Equipment Financing")]
  let base_items : List Json :=
    [.obj [("@type", .str "ListItem"), ("position", .num 1),
           ("name", .str "Home"), ("item", .str SITE_URL)],
     .obj [("@type", .str "ListItem"), ("position", .num 2),
           ("name", .str "Equipment Financing"),
           ("item", .str (SITE_URL ++ "/equipment-financing"))]]
  let breadcrumb_items : List Json :=
    base_items ++
      (if optTruthy geo then
        [.obj [("@type", .str "ListItem"), ("position", .num 3),
               ("name", .str (pyTitle (geo.getD "") ++ " Financing")),
               ("item", .str (SITE_URL ++ "/" ++
                 pyReplace (pyLower (geo.getD "")) " " "-" ++ "-financing"))]]
       else [])
  let breadcrumb_full := breadcrumb_items ++
    [.obj [("@type", .str "ListItem"), ("position", .num (breadcrumb_items.length + 1)),
           ("name", .str seo_title), ("item", .str page_url)]]
  let breadcrumb_schema : Json :=
    .obj [("@context", .str "https://schema.org"), ("@type", .str "BreadcrumbList"),
          ("itemListElement", .arr breadcrumb_full)]
  .obj [("@context", .str "https://schema.org"),
        ("@graph", .arr [faq_schema, article_schema, service_schema, breadcrumb_schema])]

/-! ## The node row as read/written by the content pipeline -/

/-- The columns of a `decision_nodes` row that `generate_content_for_node`
and `update_content_safe` read or write, plus the joined equipment-type
name.  `short_description` is modelled as a string (the only value stored
there by the pipeline). -/
structure GenNode where
  generated_content : Content
  word_count : Nat
  content_version : Nat
  status : String
  publish_gate_status : String
  publish_gate_reason : Option (List String)
  faq_count : Nat
  sources_used : List String
  short_description : String
  schema_json : Option Json
  has_schema_markup : Bool
  primary_keyword : String
  url_slug : String
  page_category : String
  spoke_type : Option String
  geo : Option String
  equipment_name : String

/-! ## Content versioning (`update_content_safe`) -/

/-- `update_content_safe(node_id, content, word_count)`, acting on the
node's row.  The Python guard is `word_count >= current_wc * 0.9` with IEEE
doubles; for word counts below `2^49` this coincides exactly with the
rational comparison `10 * word_count >= 9 * current_wc` used here (the
double nearest `0.9` exceeds `9/10` by less than one part in `10^16`,
which rounding absorbs at every such magnitude). -/
def update_content_safe (node : GenNode) (content : Content) (word_count : Nat) :
    GenNode × Bool :=
  if ¬ENABLE_CONTENT_VERSIONING then
    ({ node with generated_content := content, word_count := word_count }, true)
  else if 10 * word_count ≥ 9 * node.word_count then
    ({ node with
        generated_content := content
        word_count := word_count
        content_version := node.content_version + 1 }, true)
  else
    (node, false)

/-! ## The persistence tail of `generate_content_for_node`

Everything from the sanitization pass to the database writes, parameterised
by the parsed LLM document (`content₀`) and the competitor-source list; the
network steps that produce them are external collaborators. -/

/-- The sanitization loop: every string field is passed through
`sanitize_brand_content`; every list field is rebuilt as `{'q': ..., 'a': ...}`
items with both entries sanitized. -/
def sanitizeContent (c : Content) : Content :=
  c.map (fun kv =>
    match kv.2 with
    | .str s => (kv.1, .str (sanitize_brand_content s))
    | .faqList items =>
      (kv.1, .faqList (items.map (fun it =>
        (sanitize_brand_content it.1, sanitize_brand_content it.2)))))

/-- The items of `content.get('faq', [])` when that value is a list. -/
def faqItems (c : Content) : List (String × String) :=
  match getField c "faq" with
  | some (.faqList items) => items
  | _ => []

/-- True when `content['faq']` holds a string: iterating it in the FAQ
word-count loop then raises inside the generator's `try`, so nothing is
persisted. -/
def faqIsStr (c : Content) : Bool :=
  match getField c "faq" with
  | some (.str _) => true
  | _ => false

/-- The generator's own word count: string fields plus the `q`/`a` entries
of `content.get('faq', [])` (unlike the quality gate's count, which also
includes non-`faq` list fields). -/
def genWordCount (c : Content) : Nat :=
  (c.map (fun kv => match kv.2 with | .str s => countWords s | _ => 0)).sum +
    ((faqItems c).map (fun it => countWords it.1 + countWords it.2)).sum

/-- `content.get(k, d)` restricted to string values (these keys only ever
hold strings in generated documents). -/
def getStrOr (c : Content) (k : String) (d : String) : String :=
  match getField c k with
  | some (.str s) => s
  | _ => d

/-- Python truthiness of `content.get('short_description')`. -/
def shortDescTruthy (c : Content) : Bool :=
  match getField c "short_description" with
  | none => false
  | some (.str s) => s ≠ ""
  | some (.faqList items) => items ≠ []

/-- The deterministic short-description auto-fill templates, keyed by page
role. -/
def autoShortDesc (node : GenNode) : String :=
  if node.page_category = "hub" then
    "Compare " ++ pyLower node.equipment_name ++ " financing, rental & buying options"
  else if node.spoke_type = some "financing" then
    "Get flexible " ++ pyLower node.equipment_name ++ " financing options"
  else if node.spoke_type = some "rental" then
    "Rent quality " ++ pyLower node.equipment_name ++ " for your project"
  else if node.spoke_type = some "for-sale" then
    "Find " ++ pyLower node.equipment_name ++ " for sale near you"
  else
    "Explore " ++ pyLower node.equipment_name ++ " options"

/-- The content document after the short-description auto-fill step. -/
def autofillShortDesc (node : GenNode) (c : Content) : Content :=
  if ¬shortDescTruthy c then setField c "short_description" (.str (autoShortDesc node))
  else c

/-- The schema document generated for the node (hero image is not passed by
`generate_content_for_node`). -/
def schemaOf (node : GenNode) (c : Content) (today : String) : Json :=
  generate_schema_json (getStrOr c "seo_title" node.primary_keyword)
    (getStrOr c "meta_desc" "") node.url_slug node.equipment_name node.geo
    (faqItems c) none today

structure GenOutcome where
  node : GenNode
  gate : QualityGateResult
  word_count : Nat

/-- The tail of `generate_content_for_node` from the sanitization pass to
the two database updates: versioned content/word-count write via
`update_content_safe`, then the unconditional write of every other derived
column.  Returns `none` on the exception path where `content['faq']` is a
string. -/
def generate_content_persist (node : GenNode) (content₀ : Content)
    (sources : List String) (today : String) : Option GenOutcome :=
  let content₁ := sanitizeContent content₀
  if faqIsStr content₁ then none
  else
    let wc := genWordCount content₁
    let gate := validate_quality_gates content₁ sources
    let schema := schemaOf node content₁ today
    let content₂ := autofillShortDesc node content₁
    let node₁ := (update_content_safe node content₂ wc).1
    some
      { node :=
          { node₁ with
              faq_count := faqCount content₂
              sources_used := sources
              status := if gate.passed then "ready_to_publish" else "blocked_quality"
              publish_gate_status := if gate.passed then "passed" else "blocked"
              publish_gate_reason := if gate.failures ≠ [] then some gate.failures else none
              short_description := getStrOr content₂ "short_description" ""
              schema_json := some schema
              has_schema_markup := true }
        gate := gate
        word_count := wc }

/-! ## Shared lemmas -/

/-- A gate that did not pass has a nonempty failure list. -/
theorem gate_failures_ne_nil_of_not_passed (c : Content) (s : List String)
    (a b d : Nat) (h : (validate_quality_gates c s a b d).passed = false) :
    (validate_quality_gates c s a b d).failures ≠ [] := by
  intro hnil
  simp only [validate_quality_gates] at h hnil
  rw [hnil] at h
  simp at h

/-! ## Sample inputs used by witnesses -/

/-- A populated spoke-node row with stored word count 1000, as in the
spec's version-non-regression example. -/
def wNode : GenNode :=
  { generated_content := [("main_content", .str "old body")]
    word_count := 1000
    content_version := 3
    status := "published"
    publish_gate_status := "passed"
    publish_gate_reason := none
    faq_count := 5
    sources_used := ["https://a.example", "https://b.example"]
    short_description := "old description"
    schema_json := none
    has_schema_markup := false
    primary_keyword := "excavator financing"
    url_slug := "excavator-financing"
    page_category := "spoke"
    spoke_type := some "financing"
    geo := none
    equipment_name := "Excavator" }

/-- A small parsed document whose word count (5) regresses the stored 1000. -/
def wContent10 : Content :=
  [("main_content", .str "brand new body text"), ("faq", .faqList [("why", "because")])]

/-- The outcome of the persistence tail on `wNode`/`wContent10`. -/
def w10r : GenOutcome :=
  match generate_content_persist wNode wContent10 ["https://s.example"] "2026-01-01" with
  | some r => r
  | none => ⟨wNode, ⟨false, [], 0, 0, 0⟩, 0⟩

/-- A document with exactly 3 FAQ entries. -/
def wContent4 : Content :=
  [("intro", .str "short intro"),
   ("faq", .faqList [("q one", "a one"), ("q two", "a two"), ("q three", "a three")])]

/-! ## Claim theorems: content pipeline -/

/-- Claim C2: `update_content_safe` applies an update iff the new word
count `N` satisfies `N ≥ 0.9 · W` for stored word count `W` (as the exact
rational comparison `10N ≥ 9W`); on acceptance `content_version` increments
by exactly 1 and content/word count are stored; on rejection the row is
left entirely unchanged. -/
theorem update_content_safe_guard (node : GenNode) (content : Content) (wc : Nat) :
    ((update_content_safe node content wc).2 = true ↔ 9 * node.word_count ≤ 10 * wc) ∧
    ((update_content_safe node content wc).2 = true →
      (update_content_safe node content wc).1 =
        { node with generated_content := content, word_count := wc,
                    content_version := node.content_version + 1 }) ∧
    ((update_content_safe node content wc).2 = false →
      (update_content_safe node content wc).1 = node) := by
  by_cases h : 9 * node.word_count ≤ 10 * wc <;>
    simp [update_content_safe, ENABLE_CONTENT_VERSIONING, h]

/-- Witness for C2 at the spec's example: stored word count 1000, an update
of 500 words is rejected leaving the row unchanged, an update of 920 words
is accepted with `content_version` incremented by exactly 1. -/
theorem update_content_safe_guard_witness :
    (update_content_safe wNode wContent10 500).1 = wNode ∧
    (update_content_safe wNode wContent10 920).1.content_version =
      wNode.content_version + 1 ∧
    (update_content_safe wNode wContent10 920).1.word_count = 920 := by
  refine ⟨(update_content_safe_guard wNode wContent10 500).2.2 ?_,
          ?_, ?_⟩
  · decide
  · rw [(update_content_safe_guard wNode wContent10 920).2.1 (by decide)]
  · rw [(update_content_safe_guard wNode wContent10 920).2.1 (by decide)]

/-- Claim C4: `validate_quality_gates` (with its default thresholds) passes
iff word count ≥ 800, source count ≥ 2, FAQ count ≥ 4 and the dumped
content is brand-compliant; a document with exactly 3 FAQ entries fails
with the reason `"faqs (3) < 4"`; and the generator persists a failing node
with status `blocked_quality` carrying the gate's failure reasons. -/
theorem validate_quality_gates_spec (content : Content) (sources : List String)
    (node : GenNode) (today : String) :
    ((validate_quality_gates content sources).passed = true ↔
      (800 ≤ gateWordCount content ∧ 2 ≤ sources.length ∧ 4 ≤ faqCount content ∧
        (check_brand_compliance (jsonDumps content)).1 = true)) ∧
    (faqCount content = 3 →
      (validate_quality_gates content sources).passed = false ∧
      "faqs (3) < 4" ∈ (validate_quality_gates content sources).failures) ∧
    (∀ r : GenOutcome, generate_content_persist node content sources today = some r →
      r.gate.passed = false →
        r.node.status = "blocked_quality" ∧
        r.node.publish_gate_reason = some r.gate.failures) := by
  refine ⟨?_, ?_, ?_⟩
  · simp only [validate_quality_gates]
    by_cases h1 : gateWordCount content < 800 <;>
      by_cases h2 : sources.length < 2 <;>
        by_cases h3 : faqCount content < 4 <;>
          by_cases h4 : (check_brand_compliance (jsonDumps content)).1 = true <;>
            simp [h1, h2, h3, h4] <;> omega
  · intro h3
    have hfaqmsg : "faqs (" ++ toString (3 : Nat) ++ ") < " ++ toString (4 : Nat) =
        "faqs (3) < 4" := rfl
    simp only [validate_quality_gates, h3]
    by_cases h1 : gateWordCount content < 800 <;>
      by_cases h2 : sources.length < 2 <;>
        by_cases h4 : (check_brand_compliance (jsonDumps content)).1 = true <;>
          simp [h1, h2, h4, hfaqmsg]
  · intro r hr hfail
    simp only [generate_content_persist] at hr
    split at hr
    · exact absurd hr (by simp)
    · rw [Option.some_inj] at hr
      subst hr
      simp only at hfail
      have hne := gate_failures_ne_nil_of_not_passed _ _ _ _ _ hfail
      simp [hfail, hne]

/-- Witness for C4: a document with 3 FAQ entries fails the gate and the
failure list names `faqs`. -/
theorem validate_quality_gates_spec_witness :
    faqCount wContent4 = 3 ∧
    (validate_quality_gates wContent4 []).passed = false ∧
    "faqs (3) < 4" ∈ (validate_quality_gates wContent4 []).failures := by
  refine ⟨by decide, ?_⟩
  exact (validate_quality_gates_spec wContent4 [] wNode "2026-01-01").2.1 (by decide)

/-- Claim C8 (code bug): `sanitize_brand_content` substitutes
`"we offer loans"` with `"our lending partners offer"`, which itself
contains the banned phrase `"our lending"`, so `check_brand_compliance`
rejects the sanitized output; the all-caps variant `"OUR LENDING"` is not
replaced at all; and the title-case replacement is the fully title-cased
`"Lending Partners In Our Network"`, not a leading-capital variant. -/
theorem sanitize_brand_content_bug :
    sanitize_brand_content "we offer loans" = "our lending partners offer" ∧
    (check_brand_compliance (sanitize_brand_content "we offer loans")).1 = false ∧
    sanitize_brand_content "OUR LENDING" = "OUR LENDING" ∧
    (check_brand_compliance (sanitize_brand_content "OUR LENDING")).1 = false ∧
    sanitize_brand_content "Our Lending" = "Lending Partners In Our Network" := by
  decide

/-- Claim C10: when the content-version guard rejects a regressive update,
the generator still overwrites status, publish-gate fields, `faq_count`,
`sources_used`, `short_description` and the schema from the rejected
document; only `generated_content`, `word_count` (and `content_version`)
keep their previous values. -/
theorem generate_persist_overwrites_on_rejected_update (node : GenNode)
    (content : Content) (sources : List String) (today : String) (r : GenOutcome)
    (hr : generate_content_persist node content sources today = some r)
    (hreject : 10 * genWordCount (sanitizeContent content) < 9 * node.word_count) :
    r.node.generated_content = node.generated_content ∧
    r.node.word_count = node.word_count ∧
    r.node.content_version = node.content_version ∧
    r.node.status = (if r.gate.passed then "ready_to_publish" else "blocked_quality") ∧
    r.node.publish_gate_status = (if r.gate.passed then "passed" else "blocked") ∧
    r.node.publish_gate_reason =
      (if r.gate.failures ≠ [] then some r.gate.failures else none) ∧
    r.node.faq_count = faqCount (autofillShortDesc node (sanitizeContent content)) ∧
    r.node.sources_used = sources ∧
    r.node.short_description =
      getStrOr (autofillShortDesc node (sanitizeContent content)) "short_description" "" ∧
    r.node.schema_json = some (schemaOf node (sanitizeContent content) today) := by
  simp only [generate_content_persist] at hr
  split at hr
  · exact absurd hr (by simp)
  · rw [Option.some_inj] at hr
    subst hr
    have hguard : ¬ (9 * node.word_count ≤ 10 * genWordCount (sanitizeContent content)) := by
      omega
    simp [update_content_safe, ENABLE_CONTENT_VERSIONING, hguard]

/-- Witness for C10: a 5-word regenerated document against a stored word
count of 1000 — the rejected update still rewrites the derived columns. -/
theorem generate_persist_overwrites_witness :
    generate_content_persist wNode wContent10 ["https://s.example"] "2026-01-01" =
      some w10r ∧
    10 * genWordCount (sanitizeContent wContent10) < 9 * wNode.word_count ∧
    (w10r.node.generated_content = wNode.generated_content ∧
     w10r.node.word_count = wNode.word_count ∧
     w10r.node.content_version = wNode.content_version ∧
     w10r.node.status =
       (if w10r.gate.passed then "ready_to_publish" else "blocked_quality") ∧
     w10r.node.publish_gate_status =
       (if w10r.gate.passed then "passed" else "blocked") ∧
     w10r.node.publish_gate_reason =
       (if w10r.gate.failures ≠ [] then some w10r.gate.failures else none) ∧
     w10r.node.faq_count = faqCount (autofillShortDesc wNode (sanitizeContent wContent10)) ∧
     w10r.node.sources_used = ["https://s.example"] ∧
     w10r.node.short_description =
       getStrOr (autofillShortDesc wNode (sanitizeContent wContent10)) "short_description" "" ∧
     w10r.node.schema_json = some (schemaOf wNode (sanitizeContent wContent10) "2026-01-01")) :=
  ⟨rfl, by decide,
   generate_persist_overwrites_on_rejected_update wNode wContent10
     ["https://s.example"] "2026-01-01" w10r rfl (by decide)⟩

/-! ## Circuit breaker (`CircuitBreaker`) -/

def CIRCUIT_BREAKER_THRESHOLD : Nat := 3

structure CircuitBreaker where
  threshold : Nat
  failures : Nat
  is_open : Bool
deriving DecidableEq

/-- The module-level `circuit_breaker = CircuitBreaker()` in its initial
state. -/
def freshBreaker : CircuitBreaker :=
  { threshold := CIRCUIT_BREAKER_THRESHOLD, failures := 0, is_open := false }

def CircuitBreaker.record_success (b : CircuitBreaker) : CircuitBreaker :=
  { b with failures := 0, is_open := false }

def CircuitBreaker.record_failure (b : CircuitBreaker) : CircuitBreaker :=
  let f := b.failures + 1
  { b with failures := f, is_open := if b.threshold ≤ f then true else b.is_open }

def CircuitBreaker.can_proceed (b : CircuitBreaker) : Bool := !b.is_open

def CircuitBreaker.reset (b : CircuitBreaker) : CircuitBreaker :=
  { b with failures := 0, is_open := false }

/-! ## Publisher (`publish_to_webflow`) -/

/-- The `decision_nodes` columns read by `publish_to_webflow`; nullable
columns are `Option`s. -/
structure PubNode where
  generated_content : Option Content
  hero_image_url : Option String
  short_description : Option String
  page_category : Option String
  spoke_type : Option String
  webflow_item_id : Option String
  webflow_status : Option String
  status : String
  url_slug : String
deriving DecidableEq

/-- Python truthiness of the `generated_content` column (`None` and the
empty dict are falsy). -/
def contentTruthy : Option Content → Bool
  | none => false
  | some c => c ≠ []

/-- The publish-validation block: all missing-field reasons, in source
order. -/
def publishValidationErrors (n : PubNode) : List String :=
  (if ¬contentTruthy n.generated_content then ["No generated content"] else []) ++
  (if ¬optTruthy n.hero_image_url then ["No hero image"] else []) ++
  (if ¬optTruthy n.short_description then ["No short description"] else []) ++
  (if ¬optTruthy n.page_category then ["Missing page_category"] else []) ++
  (if n.page_category = some "spoke" ∧ ¬optTruthy n.spoke_type then
    ["Missing spoke_type"] else [])

/-- The outcome of the single CMS request, an external collaborator: a
2xx response carrying `data.get('id')`, a non-2xx response, or a raised
exception. -/
inductive TransportOutcome where
  | ok (returned_id : Option String)
  | httpError (code : Nat) (text : String)
  | exn (msg : String)

structure PublishResult where
  success : Bool
  error : Option String
  validation_errors : List String
  network_called : Bool
  webflow_item_id : Option String
  url : Option String
deriving DecidableEq

structure PublishOutcome where
  result : PublishResult
  breaker : CircuitBreaker
  node : Option PubNode
deriving DecidableEq

/-- A failed result produced before any network activity. -/
def failResult (msg : String) : PublishResult :=
  { success := false, error := some msg, validation_errors := [],
    network_called := false, webflow_item_id := none, url := none }

/-- `publish_to_webflow(node_id)`.  `configured` models the
`WEBFLOW_API_TOKEN`/`WEBFLOW_COLLECTION_ID` presence check, `kill_ok` the
result of `check_kill_switch()`, `nodeRow` the fetched row, and
`transport` the CMS response; `network_called` records whether the
create/update request was issued. -/
def publish_to_webflow (configured kill_ok : Bool) (breaker : CircuitBreaker)
    (nodeRow : Option PubNode) (transport : TransportOutcome) : PublishOutcome :=
  if ¬configured then ⟨failResult "Webflow not configured", breaker, nodeRow⟩
  else if ¬kill_ok then ⟨failResult "Kill switch active", breaker, nodeRow⟩
  else if ¬breaker.can_proceed then ⟨failResult "Circuit breaker open", breaker, nodeRow⟩
  else
    match nodeRow with
    | none => ⟨failResult "Node not found", breaker, none⟩
    | some n =>
      let errs := publishValidationErrors n
      if errs ≠ [] then
        ⟨{ success := false
           error := some ("Publish validation failed: " ++ String.intercalate ", " errs)
           validation_errors := errs
           network_called := false
           webflow_item_id := none
           url := none }, breaker, some n⟩
      else
        match transport with
        | .ok rid =>
          let item_id :=
            match rid with
            | some s => if s ≠ "" then some s else n.webflow_item_id
            | none => n.webflow_item_id
          ⟨{ success := true
             error := none
             validation_errors := []
             network_called := true
             webflow_item_id := item_id
             url := some (SITE_URL ++ "/equipment/" ++ n.url_slug ++ "/") },
           breaker.record_success,
           some { n with
                    webflow_item_id := item_id
                    webflow_status := some "published"
                    status := "published" }⟩
        | .httpError code text =>
          ⟨{ success := false
             error := some ("HTTP " ++ toString code ++ ": " ++ ⟨text.data.take 200⟩)
             validation_errors := []
             network_called := true
             webflow_item_id := none
             url := none }, breaker.record_failure, some n⟩
        | .exn msg =>
          ⟨{ success := false
             error := some msg
             validation_errors := []
             network_called := true
             webflow_item_id := none
             url := none }, breaker.record_failure, some n⟩

/-! ## Claim theorems: publisher safety -/

/-- Closed form of repeated `record_failure` from the fresh breaker. -/
theorem iterate_record_failure (k : Nat) :
    CircuitBreaker.record_failure^[k] freshBreaker =
      ⟨CIRCUIT_BREAKER_THRESHOLD, k, decide (3 ≤ k)⟩ := by
  induction k with
  | zero => rfl
  | succ k ih =>
    rw [Function.iterate_succ_apply', ih]
    simp only [CircuitBreaker.record_failure, CIRCUIT_BREAKER_THRESHOLD]
    by_cases h : 3 ≤ k + 1 <;> simp [h] <;> omega

/-- Claim C5: three consecutive recorded failures open the breaker (and it
stays open under further failures); every publish attempt against an open
breaker is rejected with the circuit-open error before any network call
and leaves the breaker (still open) and the node untouched; a recorded
success resets the failure counter to 0; and a failing transport on a
publish records exactly one breaker failure. -/
theorem circuit_breaker_spec :
    (∀ k, 3 ≤ k →
      (CircuitBreaker.record_failure^[k] freshBreaker).is_open = true) ∧
    (∀ (b : CircuitBreaker) (nodeRow : Option PubNode) (t : TransportOutcome),
      b.is_open = true →
        (publish_to_webflow true true b nodeRow t).result.error =
          some "Circuit breaker open" ∧
        (publish_to_webflow true true b nodeRow t).result.network_called = false ∧
        (publish_to_webflow true true b nodeRow t).breaker = b ∧
        (publish_to_webflow true true b nodeRow t).node = nodeRow) ∧
    (∀ b : CircuitBreaker, b.record_success.failures = 0) ∧
    (∀ (b : CircuitBreaker) (n : PubNode) (code : Nat) (text : String),
      b.is_open = false → publishValidationErrors n = [] →
        (publish_to_webflow true true b (some n) (.httpError code text)).breaker =
          b.record_failure ∧
        (publish_to_webflow true true b (some n)
          (.httpError code text)).result.network_called = true) := by
  refine ⟨?_, ?_, ?_, ?_⟩
  · intro k hk
    rw [iterate_record_failure]
    simpa using hk
  · intro b nodeRow t hb
    simp [publish_to_webflow, CircuitBreaker.can_proceed, hb, failResult]
  · intro b
    simp [CircuitBreaker.record_success]
  · intro b n code text hb herrs
    simp [publish_to_webflow, CircuitBreaker.can_proceed, hb, herrs]

/-- A complete publishable row, used by witnesses. -/
def wPubNode : PubNode :=
  { generated_content := some [("main_content", .str "body")]
    hero_image_url := some "https://img.example/hero.png"
    short_description := some "desc"
    page_category := some "spoke"
    spoke_type := some "financing"
    webflow_item_id := none
    webflow_status := none
    status := "ready_to_publish"
    url_slug := "excavator-financing" }

/-- Witness for C5: the fresh breaker is open after exactly 3 recorded
failures; a 4th publish attempt is then rejected without a network call;
and a recorded success resets the counter. -/
theorem circuit_breaker_spec_witness :
    (CircuitBreaker.record_failure^[3] freshBreaker).is_open = true ∧
    (publish_to_webflow true true (CircuitBreaker.record_failure^[3] freshBreaker)
        (some wPubNode) (.ok (some "item-1"))).result.error =
      some "Circuit breaker open" ∧
    (publish_to_webflow true true (CircuitBreaker.record_failure^[3] freshBreaker)
        (some wPubNode) (.ok (some "item-1"))).result.network_called = false ∧
    ((CircuitBreaker.record_failure^[3] freshBreaker).record_success).failures = 0 := by
  have h3 : (CircuitBreaker.record_failure^[3] freshBreaker).is_open = true :=
    circuit_breaker_spec.1 3 (by decide)
  have h2 := circuit_breaker_spec.2.1 (CircuitBreaker.record_failure^[3] freshBreaker)
    (some wPubNode) (.ok (some "item-1")) h3
  exact ⟨h3, h2.1, h2.2.1, circuit_breaker_spec.2.2.1 _⟩

/-- Claim C9: when any required publish field is missing, the publisher
fails with a message listing exactly the missing fields, issues no CMS
create/update request, and leaves both the node row and the breaker
unchanged; each reason appears in the list iff its field is missing. -/
theorem publish_validation_atomic (b : CircuitBreaker) (n : PubNode)
    (t : TransportOutcome) (hb : b.is_open = false)
    (herr : publishValidationErrors n ≠ []) :
    (publish_to_webflow true true b (some n) t).result.success = false ∧
    (publish_to_webflow true true b (some n) t).result.error =
      some ("Publish validation failed: " ++
        String.intercalate ", " (publishValidationErrors n)) ∧
    (publish_to_webflow true true b (some n) t).result.validation_errors =
      publishValidationErrors n ∧
    (publish_to_webflow true true b (some n) t).result.network_called = false ∧
    (publish_to_webflow true true b (some n) t).breaker = b ∧
    (publish_to_webflow true true b (some n) t).node = some n ∧
    (("No generated content" ∈ publishValidationErrors n ↔
        contentTruthy n.generated_content = false) ∧
     ("No hero image" ∈ publishValidationErrors n ↔
        optTruthy n.hero_image_url = false) ∧
     ("No short description" ∈ publishValidationErrors n ↔
        optTruthy n.short_description = false) ∧
     ("Missing page_category" ∈ publishValidationErrors n ↔
        optTruthy n.page_category = false) ∧
     ("Missing spoke_type" ∈ publishValidationErrors n ↔
        (n.page_category = some "spoke" ∧ optTruthy n.spoke_type = false))) := by
  refine ⟨?_, ?_, ?_, ?_, ?_, ?_, ?_⟩
  · simp [publish_to_webflow, CircuitBreaker.can_proceed, hb, herr]
  · simp [publish_to_webflow, CircuitBreaker.can_proceed, hb, herr]
  · simp [publish_to_webflow, CircuitBreaker.can_proceed, hb, herr]
  · simp [publish_to_webflow, CircuitBreaker.can_proceed, hb, herr]
  · simp [publish_to_webflow, CircuitBreaker.can_proceed, hb, herr]
  · simp [publish_to_webflow, CircuitBreaker.can_proceed, hb, herr]
  · by_cases h1 : contentTruthy n.generated_content <;>
      by_cases h2 : optTruthy n.hero_image_url <;>
        by_cases h3 : optTruthy n.short_description <;>
          by_cases h4 : optTruthy n.page_category <;>
            by_cases h5 : n.page_category = some "spoke" ∧ ¬optTruthy n.spoke_type <;>
              simp [publishValidationErrors, h1, h2, h3, h4, h5]

/-- A row missing only its hero image. -/
def wPubNodeNoHero : PubNode := { wPubNode with hero_image_url := none }

/-- Witness for C9: a node missing `hero_image_url` fails validation with
that reason and no network call is made. -/
theorem publish_validation_atomic_witness :
    publishValidationErrors wPubNodeNoHero ≠ [] ∧
    (publish_to_webflow true true freshBreaker (some wPubNodeNoHero)
        (.ok (some "item-1"))).result.error =
      some "Publish validation failed: No hero image" ∧
    (publish_to_webflow true true freshBreaker (some wPubNodeNoHero)
        (.ok (some "item-1"))).result.network_called = false ∧
    (publish_to_webflow true true freshBreaker (some wPubNodeNoHero)
        (.ok (some "item-1"))).node = some wPubNodeNoHero ∧
    ("No hero image" ∈ publishValidationErrors wPubNodeNoHero) := by
  have h := publish_validation_atomic freshBreaker wPubNodeNoHero
    (.ok (some "item-1")) (by decide) (by decide)
  refine ⟨by decide, ?_, h.2.2.2.1, h.2.2.2.2.2.1, (h.2.2.2.2.2.2.2.1).2 (by decide)⟩
  have he := h.2.1
  simpa using he

/-! ## Interlinking engine (`generate_related_links_html`,
`inject_links_into_content`) -/

/-- One candidate related link (`{'url': ..., 'text': ..., 'type': ...}`);
the builder always sets all three keys. -/
structure RelLink where
  text : String
  url : String
  ltype : String
deriving DecidableEq

/-- The icon prefix chosen per link type. -/
def linkIcon (t : String) : String :=
  if t = "parent_hub" then "📚 " else if t = "sibling" then "→ " else "🔗 "

/-- `generate_related_links_html(related_links)`: a `related-links` block
listing the first 6 links. -/
def generate_related_links_html (links : List RelLink) : String :=
  if links = [] then ""
  else
    "<div class=\"related-links\"><h3>Related Resources</h3><ul>" ++
      String.join ((links.take 6).map (fun l =>
        "<li><a href=\"" ++ l.url ++ "\">" ++ linkIcon l.ltype ++ l.text ++ "</a></li>")) ++
      "</ul></div>"

/-- `s[a:b]` on character lists (with `Nat` truncation mirroring the
clamping of slice bounds). -/
def slice (s : List Char) (a b : Nat) : List Char := (s.drop a).take (b - a)

def lowerL (s : List Char) : List Char := s.map lowerChar

/-- Whether the injection pattern
`(?<!</a>)(?<!href=")(<escaped variation>)(?!</a>)(?!">)` (compiled with
`re.IGNORECASE`) matches at position `i`: the case-folded pattern text
occurs there, the four characters before are not `</a>`, the six before
are not `href="`, the four after are not `</a>`, and the two after are not
`">` (lookarounds are case-insensitive too; a lookaround with too little
room to match succeeds, which the slice lengths encode). -/
def matchAt (s pat : List Char) (i : Nat) : Bool :=
  lowerL ((s.drop i).take pat.length) = lowerL pat ∧
  lowerL (slice s (i - 4) i) ≠ "</a>".data ∧
  lowerL (slice s (i - 6) i) ≠ "href=\"".data ∧
  lowerL ((s.drop (i + pat.length)).take 4) ≠ "</a>".data ∧
  lowerL ((s.drop (i + pat.length)).take 2) ≠ "\">".data

/-- Scan for the leftmost match position. -/
def findMatchGo (s pat : List Char) : Nat → Nat → Option Nat
  | _, 0 => none
  | i, fuel + 1 => if matchAt s pat i then some i else findMatchGo s pat (i + 1) fuel

/-- `pattern.search(field_content)`: leftmost match position. -/
def findMatchIdx (s pat : List Char) : Option Nat :=
  findMatchGo s pat 0 (s.length + 1)

/-- `pattern.sub(replacement, field_content, count=1)` guarded by
`pattern.search`: replace the leftmost match of the variation with
`<a href="{url}">{variation}</a>` (no backslash expansion arises: URLs are
slash-and-slug paths). -/
def subFirst (s pat anchor : List Char) : Option (List Char) :=
  match findMatchIdx s pat with
  | none => none
  | some i => some (s.take i ++ anchor ++ s.drop (i + pat.length))

/-- `anchor_text.split()[0]` when the split is nonempty. -/
def pySplitHead (s : String) : Option String :=
  let l := s.data.dropWhile (fun c => isPyWhitespace c)
  if l = [] then none else some ⟨l.takeWhile (fun c => !isPyWhitespace c)⟩

/-- The anchor-text variation list.  When `' ' in anchor_text` but
`split()` is empty (whitespace-only text), Python raises `IndexError`; the
model yields no fourth variation, so theorems carry a `linkOk` hypothesis
excluding that input. -/
def variationsOf (t : String) : List (Option String) :=
  [some t, some (pyLower t), some (pyReplace t " financing" ""),
   if pyContains t " " then pySplitHead t else none]

/-- Excludes the `IndexError` input described at `variationsOf`. -/
def linkOk (l : RelLink) : Bool :=
  !(l.url ≠ "" && pyContains l.text " " && (pySplitHead l.text).isNone)

/-- Try the variations in order; the first that is nonempty, at least 4
characters long and matches somewhere is substituted once. -/
def tryVariations (url : String) (fc : List Char) : List (Option String) → Option (List Char)
  | [] => none
  | none :: rest => tryVariations url fc rest
  | some v :: rest =>
    if v = "" ∨ v.data.length < 4 then tryVariations url fc rest
    else
      match subFirst fc v.data ("<a href=\"" ++ url ++ "\">" ++ v ++ "</a>").data with
      | some fc' => some fc'
      | none => tryVariations url fc rest

/-- Process one candidate link against one field's text. -/
def injectOneLink (l : RelLink) (fc : List Char) : Option (List Char) :=
  if l.text = "" ∨ l.url = "" then none
  else tryVariations l.url fc (variationsOf l.text)

/-- The `max_links_per_field = 2` cap. -/
def max_links_per_field : Nat := 2

/-- The per-field loop over candidate links, threading the per-field count
`fl` and the node-wide count `ti` with the two `break` guards of the
source. -/
def injectFieldLinks : List RelLink → List Char → Nat → Nat → List Char × Nat × Nat
  | [], fc, fl, ti => (fc, fl, ti)
  | l :: rest, fc, fl, ti =>
    if max_links_per_field ≤ fl then (fc, fl, ti)
    else if 5 ≤ ti then (fc, fl, ti)
    else
      match injectOneLink l fc with
      | some fc' => injectFieldLinks rest fc' (fl + 1) (ti + 1)
      | none => injectFieldLinks rest fc fl ti

/-- The `linkable_fields` list. -/
def linkableFields : List String := ["main_content", "intro", "features", "how_it_works"]

/-- The outer loop over linkable fields: returns the updated content, the
final node-wide count, and the per-field counts of the processed string
fields. -/
def injectLinksAux (links : List RelLink) :
    List String → Content → Nat → Content × Nat × List Nat
  | [], c, ti => (c, ti, [])
  | f :: rest, c, ti =>
    match getField c f with
    | some (.str s) =>
      let r := injectFieldLinks links s.data 0 ti
      let rec₁ := injectLinksAux links rest (setField c f (.str ⟨r.1⟩)) r.2.2
      (rec₁.1, rec₁.2.1, r.2.1 :: rec₁.2.2)
    | _ => injectLinksAux links rest c ti

/-- `inject_links_into_content(content, related_links)`: inject into the
four body fields, then append the related-resources block to
`main_content` (the block is appended whenever the key is present; a
non-string `main_content` value would raise in Python and is left
unchanged here, a case no theorem relies on). -/
def inject_links_into_content (content : Content) (related_links : List RelLink) :
    Content :=
  if related_links = [] ∨ content = [] then content
  else
    let c' := (injectLinksAux related_links linkableFields content 0).1
    match getField c' "main_content" with
    | some (.str s) =>
      setField c' "main_content"
        (.str (s ++ "\n\n" ++ generate_related_links_html related_links))
    | _ => c'

/-! ## Interlinking lemmas -/

theorem injectFieldLinks_bounds (links : List RelLink) (fc : List Char)
    (fl ti : Nat) (hfl : fl ≤ 2) (hti : ti ≤ 5) :
    (injectFieldLinks links fc fl ti).2.1 ≤ 2 ∧
    (injectFieldLinks links fc fl ti).2.2 ≤ 5 := by
  induction links generalizing fc fl ti with
  | nil => exact ⟨hfl, hti⟩
  | cons l rest ih =>
    simp only [injectFieldLinks, max_links_per_field]
    by_cases h1 : 2 ≤ fl
    · simp [h1]; omega
    · by_cases h2 : 5 ≤ ti
      · simp [h1, h2]; omega
      · simp only [h1, h2, if_false]
        cases injectOneLink l fc with
        | some fc' => exact ih fc' (fl + 1) (ti + 1) (by omega) (by omega)
        | none => exact ih fc fl ti hfl hti

theorem injectLinksAux_bounds (links : List RelLink) (fields : List String)
    (c : Content) (ti : Nat) (hti : ti ≤ 5) :
    (injectLinksAux links fields c ti).2.1 ≤ 5 ∧
    (∀ n ∈ (injectLinksAux links fields c ti).2.2, n ≤ 2) := by
  induction fields generalizing c ti with
  | nil => simpa [injectLinksAux] using hti
  | cons f rest ih =>
    simp only [injectLinksAux]
    cases hgf : getField c f with
    | none => exact ih c ti hti
    | some v =>
      cases v with
      | faqList items => exact ih c ti hti
      | str s =>
        have hfb := injectFieldLinks_bounds links s.data 0 ti (by omega) hti
        have hrec := ih (setField c f (.str ⟨(injectFieldLinks links s.data 0 ti).1⟩))
          (injectFieldLinks links s.data 0 ti).2.2 hfb.2
        refine ⟨hrec.1, ?_⟩
        intro n hn
        simp only [List.mem_cons] at hn
        rcases hn with h | h
        · omega
        · exact hrec.2 n h

theorem findMatchGo_matchAt (s pat : List Char) :
    ∀ (i fuel j : Nat), findMatchGo s pat i fuel = some j → matchAt s pat j = true := by
  intro i fuel
  induction fuel generalizing i with
  | zero => intro j h; simp [findMatchGo] at h
  | succ fuel ih =>
    intro j h
    simp only [findMatchGo] at h
    by_cases hm : matchAt s pat i
    · simp [hm] at h; subst h; exact hm
    · simp [hm] at h; exact ih (i + 1) j h

theorem matchAt_bound (s pat : List Char) (i : Nat) (hpl : 0 < pat.length)
    (h : matchAt s pat i = true) : i + pat.length ≤ s.length := by
  simp only [matchAt, decide_eq_true_eq, Bool.and_eq_true] at h
  have hlen : (lowerL ((s.drop i).take pat.length)).length = (lowerL pat).length := by
    rw [h.1]
  simp only [lowerL, List.length_map, List.length_take, List.length_drop] at hlen
  omega

theorem subFirst_length (s pat anchor : List Char) (out : List Char)
    (hpl : 0 < pat.length) (ha : pat.length ≤ anchor.length)
    (h : subFirst s pat anchor = some out) : s.length ≤ out.length := by
  simp only [subFirst] at h
  cases hf : findMatchIdx s pat with
  | none => rw [hf] at h; simp at h
  | some i =>
    rw [hf] at h
    have hm := findMatchGo_matchAt s pat 0 (s.length + 1) i hf
    have hb := matchAt_bound s pat i hpl hm
    rw [Option.some_inj] at h
    subst h
    simp only [List.length_append, List.length_take, List.length_drop]
    omega

theorem tryVariations_length (url : String) (fc : List Char)
    (vars : List (Option String)) (fc' : List Char)
    (h : tryVariations url fc vars = some fc') : fc.length ≤ fc'.length := by
  induction vars with
  | nil => simp [tryVariations] at h
  | cons v rest ih =>
    cases v with
    | none => exact ih (by simpa [tryVariations] using h)
    | some w =>
      simp only [tryVariations] at h
      by_cases hg : w = "" ∨ w.data.length < 4
      · rw [if_pos hg] at h; exact ih h
      · rw [if_neg hg] at h
        cases hs : subFirst fc w.data ("<a href=\"" ++ url ++ "\">" ++ w ++ "</a>").data with
        | none => rw [hs] at h; exact ih h
        | some out =>
          rw [hs] at h
          rw [Option.some_inj] at h
          subst h
          push_neg at hg
          refine subFirst_length fc w.data _ out (by omega) ?_ hs
          have hdata : ("<a href=\"" ++ url ++ "\">" ++ w ++ "</a>").data =
              "<a href=\"".data ++ url.data ++ "\">".data ++ w.data ++ "</a>".data := rfl
          rw [hdata]
          simp only [List.length_append]
          omega

theorem injectOneLink_length (l : RelLink) (fc fc' : List Char)
    (h : injectOneLink l fc = some fc') : fc.length ≤ fc'.length := by
  simp only [injectOneLink] at h
  by_cases hg : l.text = "" ∨ l.url = ""
  · rw [if_pos hg] at h; simp at h
  · rw [if_neg hg] at h
    exact tryVariations_length l.url fc (variationsOf l.text) fc' h

theorem injectFieldLinks_length (links : List RelLink) (fc : List Char)
    (fl ti : Nat) : fc.length ≤ (injectFieldLinks links fc fl ti).1.length := by
  induction links generalizing fc fl ti with
  | nil => simp [injectFieldLinks]
  | cons l rest ih =>
    simp only [injectFieldLinks]
    by_cases h1 : max_links_per_field ≤ fl
    · simp [h1]
    · by_cases h2 : 5 ≤ ti
      · simp [h1, h2]
      · simp only [h1, h2, if_false]
        cases hs : injectOneLink l fc with
        | some fc₂ =>
          simp only
          calc fc.length ≤ fc₂.length := injectOneLink_length l fc fc₂ hs
            _ ≤ _ := ih fc₂ (fl + 1) (ti + 1)
        | none => exact ih fc fl ti

theorem getField_setField_same (c : Content) (k : String) (v : FieldVal) :
    getField (setField c k v) k = some v := by
  induction c with
  | nil => simp [setField, getField, List.find?]
  | cons kv rest ih =>
    by_cases h : kv.1 = k
    · simp [setField, h, getField, List.find?]
    · simp only [setField]
      rw [if_neg h]
      simpa [getField, List.find?, h] using ih

theorem getField_setField_other (c : Content) (k k' : String) (v : FieldVal)
    (hne : k' ≠ k) : getField (setField c k v) k' = getField c k' := by
  induction c with
  | nil => simp [setField, getField, List.find?, Ne.symm hne]
  | cons kv rest ih =>
    by_cases h : kv.1 = k
    · simp [setField, h, getField, List.find?, Ne.symm hne]
    · simp only [setField]
      rw [if_neg h]
      by_cases h2 : kv.1 = k'
      · simp [getField, List.find?, h2]
      · simpa [getField, List.find?, h2] using ih

/-- The `main_content` field's text, when present as a string. -/
def mainOf (c : Content) : Option String :=
  match getField c "main_content" with
  | some (.str s) => some s
  | _ => none

theorem mainOf_eq_some_iff (c : Content) (s : String) :
    mainOf c = some s ↔ getField c "main_content" = some (.str s) := by
  simp only [mainOf]
  cases h : getField c "main_content" with
  | none => simp
  | some v => cases v <;> simp

theorem mainOf_ne_nil (c : Content) (s : String) (h : mainOf c = some s) : c ≠ [] := by
  intro hc
  subst hc
  simp [mainOf, getField, List.find?] at h

theorem injectLinksAux_main (links : List RelLink) (fields : List String) :
    ∀ (c : Content) (ti : Nat) (s : String), mainOf c = some s →
      ∃ s', mainOf ((injectLinksAux links fields c ti).1) = some s' ∧
        s.data.length ≤ s'.data.length := by
  induction fields with
  | nil => intro c ti s h; exact ⟨s, h, le_refl _⟩
  | cons f rest ih =>
    intro c ti s h
    simp only [injectLinksAux]
    cases hgf : getField c f with
    | none => exact ih c ti s h
    | some v =>
      cases v with
      | faqList items => exact ih c ti s h
      | str t =>
        simp only
        by_cases hf : f = "main_content"
        · subst hf
          have ht : t = s := by
            rw [mainOf_eq_some_iff] at h
            rw [hgf] at h
            injection h with h'
            cases h'
            rfl
          subst ht
          have hset : mainOf (setField c "main_content"
              (.str ⟨(injectFieldLinks links t.data 0 ti).1⟩)) =
              some ⟨(injectFieldLinks links t.data 0 ti).1⟩ := by
            rw [mainOf_eq_some_iff]
            exact getField_setField_same c "main_content" _
          obtain ⟨s', hs', hl'⟩ := ih _ _ _ hset
          refine ⟨s', hs', ?_⟩
          have := injectFieldLinks_length links t.data 0 ti
          simp only at hl'
          omega
        · have hset : mainOf (setField c f
              (.str ⟨(injectFieldLinks links t.data 0 ti).1⟩)) = some s := by
            rw [mainOf_eq_some_iff] at h ⊢
            rw [getField_setField_other c f "main_content" _ (fun hh => hf hh.symm)]
            exact h
          exact ih _ _ _ hset

/-- One run of the injector strictly grows `main_content`: the in-text
substitutions never shrink it and the related-resources block (plus its
separator) is appended unconditionally. -/
theorem inject_links_main_growth (c : Content) (L : List RelLink) (s : String)
    (hL : L ≠ []) (hmain : mainOf c = some s) :
    ∃ s', mainOf (inject_links_into_content c L) = some s' ∧
      s.data.length < s'.data.length := by
  have hc : c ≠ [] := mainOf_ne_nil c s hmain
  obtain ⟨s₁, hs₁, hlen₁⟩ := injectLinksAux_main L linkableFields c 0 s hmain
  rw [mainOf_eq_some_iff] at hs₁
  simp only [inject_links_into_content]
  rw [if_neg (by simp [hL, hc])]
  rw [hs₁]
  refine ⟨s₁ ++ "\n\n" ++ generate_related_links_html L, ?_, ?_⟩
  · rw [mainOf_eq_some_iff]
    exact getField_setField_same _ _ _
  · have hd : (s₁ ++ "\n\n" ++ generate_related_links_html L).data =
        s₁.data ++ "\n\n".data ++ (generate_related_links_html L).data := rfl
    rw [hd]
    simp only [List.length_append, List.length_cons, List.length_nil]
    omega

/-! ## Claim theorems: interlinking -/

/-- Content holding a pre-existing anchor around "excavator financing". -/
def wNestedContent : Content :=
  [("main_content", .str "See <a href=\"/x\">excavator financing</a> today")]

def wNestedLinks : List RelLink := [⟨"excavator financing", "/y", "sibling"⟩]

/-- Counterexample to claim C6's never-re-wrapped clause: with the full
anchor text already wrapped (so its own occurrence is blocked by the
lookahead), the stripped variation "excavator" matches inside the existing
anchor text and is wrapped there, nesting a second anchor inside the
first. -/
theorem inject_links_rewrap_counterexample :
    pyContains ((mainOf wNestedContent).getD "") "<a href=\"/y\">" = false ∧
    pyContains ((mainOf (inject_links_into_content wNestedContent wNestedLinks)).getD "")
      "<a href=\"/x\"><a href=\"/y\">excavator</a> financing</a>" = true := by
  decide

/-- Claim C6 (amended): the injector's substitution counters respect the
hard caps — at most 2 substitutions per body field and at most 5 per node;
the protection of already-wrapped text, however, only covers an occurrence
immediately followed by `</a>`, so a shorter anchor-text variation can be
wrapped inside an existing anchor (see the counterexample).  `linkOk`
excludes the whitespace-only anchor text on which the source raises
`IndexError`. -/
theorem inject_links_injection_caps (content : Content) (links : List RelLink)
    (_hWF : links.all linkOk = true) :
    (injectLinksAux links linkableFields content 0).2.1 ≤ 5 ∧
    ∀ n ∈ (injectLinksAux links linkableFields content 0).2.2, n ≤ 2 :=
  injectLinksAux_bounds links linkableFields content 0 (by omega)

/-- Ten candidate links, as in the claim's example. -/
def wTenLinks : List RelLink :=
  [⟨"alpha", "/1", "sibling"⟩, ⟨"bravo", "/2", "sibling"⟩, ⟨"candy", "/3", "sibling"⟩,
   ⟨"delta", "/4", "sibling"⟩, ⟨"eagle", "/5", "sibling"⟩, ⟨"frost", "/6", "sibling"⟩,
   ⟨"gamma", "/7", "sibling"⟩, ⟨"hotel", "/8", "sibling"⟩, ⟨"igloo", "/9", "sibling"⟩,
   ⟨"jumbo", "/10", "sibling"⟩]

/-- Four body fields each containing all ten anchor texts. -/
def wRichContent : Content :=
  [("main_content", .str "alpha bravo candy delta eagle frost gamma hotel igloo jumbo"),
   ("intro", .str "alpha bravo candy delta eagle frost gamma hotel igloo jumbo"),
   ("features", .str "alpha bravo candy delta eagle frost gamma hotel igloo jumbo"),
   ("how_it_works", .str "alpha bravo candy delta eagle frost gamma hotel igloo jumbo")]

/-- Witness for C6: ten candidates against four all-matching fields yield
per-field counts `[2, 2, 1, 0]` and total 5, within the caps. -/
theorem inject_links_injection_caps_witness :
    wTenLinks.all linkOk = true ∧
    (injectLinksAux wTenLinks linkableFields wRichContent 0).2.2 = [2, 2, 1, 0] ∧
    (injectLinksAux wTenLinks linkableFields wRichContent 0).2.1 ≤ 5 ∧
    (∀ n ∈ (injectLinksAux wTenLinks linkableFields wRichContent 0).2.2, n ≤ 2) :=
  ⟨by decide, by decide,
   (inject_links_injection_caps wRichContent wTenLinks (by decide)).1,
   (inject_links_injection_caps wRichContent wTenLinks (by decide)).2⟩

def wSmallContent : Content := [("main_content", .str "hello")]

def wSmallLinks : List RelLink := [⟨"zzzz", "/z", ""⟩]

/-- Counterexample to claim C7: re-running the injector on its own output
(same candidate list) changes the content — the related-resources block is
appended a second time. -/
theorem inject_links_idempotence_counterexample :
    inject_links_into_content (inject_links_into_content wSmallContent wSmallLinks)
        wSmallLinks ≠
      inject_links_into_content wSmallContent wSmallLinks := by
  decide

/-- Claim C7 (amended): the injector is never idempotent on content with a
string `main_content` field and a nonempty candidate list — every run
strictly grows `main_content` by appending the related-resources block
again, so a re-run always changes the content. -/
theorem inject_links_appends_block_each_run (c : Content) (L : List RelLink)
    (s : String) (hL : L ≠ []) (hmain : mainOf c = some s)
    (_hWF : L.all linkOk = true) :
    (∃ s', mainOf (inject_links_into_content c L) = some s' ∧
      s.data.length < s'.data.length) ∧
    inject_links_into_content (inject_links_into_content c L) L ≠
      inject_links_into_content c L := by
  refine ⟨inject_links_main_growth c L s hL hmain, ?_⟩
  obtain ⟨s₁, h1, l1⟩ := inject_links_main_growth c L s hL hmain
  obtain ⟨s₂, h2, l2⟩ := inject_links_main_growth (inject_links_into_content c L) L s₁ hL h1
  intro heq
  rw [heq, h1] at h2
  injection h2 with h2'
  subst h2'
  omega

/-- Witness for C7 at the counterexample input. -/
theorem inject_links_appends_block_each_run_witness :
    wSmallLinks ≠ [] ∧ mainOf wSmallContent = some "hello" ∧
    wSmallLinks.all linkOk = true ∧
    inject_links_into_content (inject_links_into_content wSmallContent wSmallLinks)
        wSmallLinks ≠
      inject_links_into_content wSmallContent wSmallLinks :=
  ⟨by decide, by decide, by decide,
   (inject_links_appends_block_each_run wSmallContent wSmallLinks "hello"
     (by decide) (by decide) (by decide)).2⟩

/-! ## URL slugs (`normalize_text`, `generate_url_slug`)

`normalize_text` first applies Unicode NFKD and strips combining marks,
which is the identity on the ASCII keywords modelled here. -/

/-- Split on whitespace runs (`str.split()` with no argument). -/
def splitWsGo : List Char → List Char → List (List Char)
  | acc, [] => if acc = [] then [] else [acc.reverse]
  | acc, c :: cs =>
    if isPyWhitespace c then
      if acc = [] then splitWsGo [] cs else acc.reverse :: splitWsGo [] cs
    else splitWsGo (c :: acc) cs

def pySplitWs (s : String) : List String :=
  (splitWsGo [] s.data).map (fun l => ⟨l⟩)

/-- `normalize_text(text)` (ASCII fragment): lower-case and collapse
whitespace via `' '.join(text.lower().split())`. -/
def normalize_text (s : String) : String :=
  if s = "" then "" else String.intercalate " " (pySplitWs (pyLower s))

def isSlugChar (c : Char) : Bool :=
  ('a' ≤ c ∧ c ≤ 'z') ∨ ('0' ≤ c ∧ c ≤ '9') ∨ c = '-'

/-- `re.sub(r'\-+', '-', s)`: collapse dash runs. -/
def collapseDashes : Bool → List Char → List Char
  | _, [] => []
  | prevDash, c :: cs =>
    if c = '-' then
      if prevDash then collapseDashes true cs else '-' :: collapseDashes true cs
    else c :: collapseDashes false cs

/-- `s.strip('-')`. -/
def stripDashes (l : List Char) : List Char :=
  ((l.dropWhile (fun c => c = '-')).reverse.dropWhile (fun c => c = '-')).reverse

/-- `generate_url_slug(text)`. -/
def generate_url_slug (s : String) : String :=
  let normalized := (normalize_text s).data
  let dashed := normalized.map (fun c => if c = ' ' then '-' else c)
  ⟨(stripDashes (collapseDashes false (dashed.filter isSlugChar))).take 100⟩

/-! ## Page registry (the `equipment_types` and `decision_nodes` tables) -/

structure EquipmentType where
  id : Nat
  name : String
  slug : String
  hub_node_id : Option Nat
deriving DecidableEq

/-- A `decision_nodes` row as written by the decision engine and cluster
builder (columns not set by an insert take their database defaults; the
float `commercial_score` column is never read back and is omitted). -/
structure Node where
  id : Nat
  primary_keyword : String
  url_slug : String
  normalized_decision_key : String
  node_type : String
  equipment_type_id : Nat
  page_category : String
  spoke_type : Option String
  parent_hub_id : Option Nat
  geo : Option String
  modifier : Option String
  brand_id : Option Nat
  status : String
  node_total_volume : Int
  difficulty_score : Int
deriving DecidableEq

/-- The page registry: both tables plus a fresh-id counter standing for
the database's id generation (rows are returned in insertion order). -/
structure Registry where
  etypes : List EquipmentType
  nodes : List Node
  nextId : Nat
deriving DecidableEq

/-- `get_or_create_equipment_type(equipment_name)`: get-or-insert keyed by
slug (the insert-failure path returning `None` is a transport error, out
of scope). -/
def get_or_create_equipment_type (equipment_name : String) (r : Registry) :
    Nat × Registry :=
  let slug := generate_url_slug equipment_name
  match r.etypes.find? (fun et => et.slug = slug) with
  | some et => (et.id, r)
  | none =>
    (r.nextId,
     { r with
        etypes := r.etypes ++ [⟨r.nextId, pyTitle equipment_name, slug, none⟩]
        nextId := r.nextId + 1 })

/-- The row filter built by `check_page_exists`: equipment type; hub
category or exact spoke type; `geo`/`modifier` equality when truthy, else
SQL `NULL`; `brand_id` equality only when given. -/
def matchesKey (etId : Nat) (spoke_type : String) (geo modifier : Option String)
    (brand_id : Option Nat) (n : Node) : Bool :=
  decide (n.equipment_type_id = etId) &&
  (if spoke_type = "hub" then decide (n.page_category = "hub")
   else decide (n.spoke_type = some spoke_type)) &&
  (if optTruthy geo then decide (n.geo = geo) else decide (n.geo = none)) &&
  (if optTruthy modifier then decide (n.modifier = modifier)
   else decide (n.modifier = none)) &&
  (match brand_id with
   | some b => decide (n.brand_id = some b)
   | none => true)

/-- `check_page_exists(...)`: the first matching row's id. -/
def check_page_exists (etId : Nat) (spoke_type : String) (geo modifier : Option String)
    (brand_id : Option Nat) (nodes : List Node) : Option Nat :=
  ((nodes.filter (matchesKey etId spoke_type geo modifier brand_id)).head?).map
    (fun n => n.id)

/-- The first hub row for an equipment type. -/
def findHub (etId : Nat) (nodes : List Node) : Option Node :=
  (nodes.filter (fun n => n.equipment_type_id = etId ∧ n.page_category = "hub")).head?

/-- `create_spoke_page(...)`: resolve the parent hub when not supplied,
build the slug from name/spoke-type/geo/modifier parts, insert the row and
return its id. -/
def create_spoke_page (etId : Nat) (equipment_name spoke_type keyword : String)
    (geo modifier : Option String) (brand_id : Option Nat)
    (parent_hub_id : Option Nat) (volume kd : Int) (r : Registry) :
    Nat × Registry :=
  let parent :=
    match parent_hub_id with
    | some p => some p
    | none => (findHub etId r.nodes).map (fun n => n.id)
  let slug_parts :=
    [equipment_name] ++
    [if spoke_type ≠ "" ∧ spoke_type ≠ "financing" then pyReplace spoke_type "-" " "
     else "financing"] ++
    (if optTruthy geo then [geo.getD ""] else []) ++
    (if optTruthy modifier then [modifier.getD ""] else [])
  let url_slug := generate_url_slug (String.intercalate " " slug_parts)
  let node : Node :=
    { id := r.nextId
      primary_keyword := keyword
      url_slug := url_slug
      normalized_decision_key := url_slug
      node_type := "spoke"
      equipment_type_id := etId
      page_category := "spoke"
      spoke_type := some spoke_type
      parent_hub_id := parent
      geo := geo
      modifier := modifier
      brand_id := brand_id
      status := "discovery"
      node_total_volume := volume
      difficulty_score := kd }
  (r.nextId, { r with nodes := r.nodes ++ [node], nextId := r.nextId + 1 })

/-- The `default_spokes` list of `create_equipment_cluster` (spoke type
and keyword). -/
def defaultSpokes (equipment_name : String) : List (String × String) :=
  [("financing", equipment_name ++ " financing"),
   ("for-sale", equipment_name ++ " for sale"),
   ("rental", equipment_name ++ " rental")]

/-- The default-spoke loop: each spoke is created only when
`check_page_exists` finds none, with the hub as parent; returns the
registry and the number of pages created. -/
def clusterSpokes (etId : Nat) (equipment_name : String)
    (hub_node_id : Option Nat) :
    List (String × String) → Registry → Nat → Registry × Nat
  | [], r, cnt => (r, cnt)
  | (st, kw) :: rest, r, cnt =>
    if (check_page_exists etId st none none none r.nodes).isSome then
      clusterSpokes etId equipment_name hub_node_id rest r cnt
    else
      let r' := (create_spoke_page etId equipment_name st kw none none none
        hub_node_id 0 0 r).2
      clusterSpokes etId equipment_name hub_node_id rest r' (cnt + 1)

/-- The hub row inserted by `create_equipment_cluster`. -/
def hubNodeOf (etId : Nat) (equipment_name : String) (nid : Nat) : Node :=
  { id := nid
    primary_keyword := pyTitle equipment_name
    url_slug := generate_url_slug equipment_name
    normalized_decision_key := generate_url_slug equipment_name
    node_type := "hub"
    equipment_type_id := etId
    page_category := "hub"
    spoke_type := none
    parent_hub_id := none
    geo := none
    modifier := none
    brand_id := none
    status := "discovery"
    node_total_volume := 0
    difficulty_score := 0 }

/-- `create_equipment_cluster(equipment_type_id, equipment_name)`: create
the hub if absent (recording it on the equipment type), then the default
spoke set.  The final `update_hub_spoke_grid` call only rewrites the hub's
`spoke_grid` display column, which no modelled logic reads. -/
def create_equipment_cluster (etId : Nat) (equipment_name : String) (r : Registry) :
    Nat × Registry :=
  let hubFound := (findHub etId r.nodes).map (fun n => n.id)
  let hubState : Option Nat × Registry × Nat :=
    match hubFound with
    | some h => (some h, r, 0)
    | none =>
      (some r.nextId,
       { r with
          etypes := r.etypes.map (fun et =>
            if et.id = etId then { et with hub_node_id := some r.nextId } else et)
          nodes := r.nodes ++ [hubNodeOf etId equipment_name r.nextId]
          nextId := r.nextId + 1 }, 1)
  let spokes := clusterSpokes etId equipment_name hubState.1
    (defaultSpokes equipment_name) hubState.2.1 0
  (hubState.2.2 + spokes.2, spokes.1)

/-- The classifier's output fields read by the decision engine (the float
scores are not). -/
structure ClassifiedKeyword where
  original_keyword : String
  equipment_type : String
  geo : Option String
  modifier : Option String
  brand : Option String
  spoke_type : String
  page_category : String
deriving DecidableEq

structure DecideResult where
  keyword : String
  actions : List String
  pages_created : Nat
  pages_skipped : Nat
deriving DecidableEq

/-- `decide_and_queue(classified, volume, kd)`: resolve the equipment
type; build the full cluster when the hub is missing (returning at once
for a hub keyword); then dedup-check and possibly create the keyword's own
spoke.  The spoke dedup key is `(equipment_type_id, spoke_type, geo,
modifier)` — `brand_id` is not passed. -/
def decide_and_queue (classified : ClassifiedKeyword) (volume kd : Int)
    (r : Registry) : DecideResult × Registry :=
  let et := get_or_create_equipment_type classified.equipment_type r
  let etId := et.1
  let r₁ := et.2
  let hub_exists := check_page_exists etId "hub" none none none r₁.nodes
  if classified.spoke_type = "hub" ∧ hub_exists = none then
    let cluster := create_equipment_cluster etId classified.equipment_type r₁
    ({ keyword := classified.original_keyword
       actions := ["Created cluster: " ++ toString cluster.1 ++ " pages"]
       pages_created := cluster.1
       pages_skipped := 0 }, cluster.2)
  else
    let step₂ : Registry × Nat × List String :=
      if hub_exists = none then
        let cluster := create_equipment_cluster etId classified.equipment_type r₁
        (cluster.2, cluster.1, ["Created cluster: " ++ toString cluster.1 ++ " pages"])
      else (r₁, 0, [])
    let r₂ := step₂.1
    if classified.spoke_type ≠ "hub" then
      let spoke_exists := check_page_exists etId classified.spoke_type
        classified.geo classified.modifier none r₂.nodes
      match spoke_exists with
      | some _ =>
        ({ keyword := classified.original_keyword
           actions := step₂.2.2 ++
             ["Skipped: " ++ classified.spoke_type ++ " page exists"]
           pages_created := step₂.2.1
           pages_skipped := 1 }, r₂)
      | none =>
        let created := create_spoke_page etId classified.equipment_type
          classified.spoke_type classified.original_keyword classified.geo
          classified.modifier none none volume kd r₂
        ({ keyword := classified.original_keyword
           actions := step₂.2.2 ++ ["Created " ++ classified.spoke_type ++ " spoke"]
           pages_created := step₂.2.1 + 1
           pages_skipped := 0 }, created.2)
    else
      ({ keyword := classified.original_keyword
         actions := step₂.2.2
         pages_created := step₂.2.1
         pages_skipped := 0 }, r₂)

/-- The number of registry rows matching a spoke dedup key (no brand
filter, as in the decision engine's check). -/
def countKey (nodes : List Node) (etId : Nat) (spoke_type : String)
    (geo modifier : Option String) : Nat :=
  (nodes.filter (matchesKey etId spoke_type geo modifier none)).length

/-! ## Decision-engine lemmas -/

theorem countKey_append (nodes : List Node) (n : Node) (etId : Nat) (st : String)
    (geo modifier : Option String) :
    countKey (nodes ++ [n]) etId st geo modifier =
      countKey nodes etId st geo modifier +
        (if matchesKey etId st geo modifier none n then 1 else 0) := by
  simp only [countKey, List.filter_append, List.length_append]
  congr 1
  by_cases h : matchesKey etId st geo modifier none n <;> simp [h]

theorem check_page_exists_eq_none_iff (etId : Nat) (st : String)
    (geo modifier : Option String) (nodes : List Node) :
    check_page_exists etId st geo modifier none nodes = none ↔
      countKey nodes etId st geo modifier = 0 := by
  simp only [check_page_exists, countKey, Option.map_eq_none',
    List.head?_eq_none_iff, List.length_eq_zero]

theorem check_page_exists_isSome_iff (etId : Nat) (st : String)
    (geo modifier : Option String) (nodes : List Node) :
    (check_page_exists etId st geo modifier none nodes).isSome = true ↔
      1 ≤ countKey nodes etId st geo modifier := by
  rw [Option.isSome_iff_ne_none, ne_eq, check_page_exists_eq_none_iff]
  omega

theorem optTruthy_none : optTruthy none = false := rfl

theorem countKey_nonTruthy (nodes : List Node) (etId : Nat) (st : String)
    (geo modifier : Option String) (hg : optTruthy geo = false)
    (hm : optTruthy modifier = false) :
    countKey nodes etId st geo modifier = countKey nodes etId st none none := by
  simp only [countKey]
  congr 1
  apply List.filter_congr
  intro n _
  simp [matchesKey, hg, hm, optTruthy_none]

theorem matchesKey_spoke_none_false (etId : Nat) (st : String)
    (geo modifier : Option String) (b : Option Nat) (n : Node)
    (hst : st ≠ "hub") (hsp : n.spoke_type = none) :
    matchesKey etId st geo modifier b n = false := by
  simp [matchesKey, hst, hsp]

theorem countKey_create_spoke (etId : Nat) (name st' kw : String)
    (geo' mod' : Option String) (b : Option Nat) (parent : Option Nat)
    (v k : Int) (r : Registry) (st : String) (geo mod : Option String)
    (hst : st ≠ "hub") :
    countKey (create_spoke_page etId name st' kw geo' mod' b parent v k r).2.nodes
        etId st geo mod =
      countKey r.nodes etId st geo mod +
        (if (decide (st' = st) &&
             (if optTruthy geo then decide (geo' = geo) else decide (geo' = none)) &&
             (if optTruthy mod then decide (mod' = mod) else decide (mod' = none))) = true
         then 1 else 0) := by
  simp only [create_spoke_page]
  rw [countKey_append]
  congr 1
  simp only [matchesKey, hst, if_false, decide_True, Bool.true_and]
  by_cases h1 : st' = st <;>
    by_cases hg : optTruthy geo <;>
      by_cases hm : optTruthy mod <;>
        simp [h1, hg, hm]

theorem clusterSpokes_countKey_pres (etId : Nat) (name : String) (hub : Option Nat)
    (specs : List (String × String)) (st : String) (geo mod : Option String)
    (hst : st ≠ "hub") :
    ∀ (r : Registry) (cnt : Nat), 1 ≤ countKey r.nodes etId st geo mod →
      countKey (clusterSpokes etId name hub specs r cnt).1.nodes etId st geo mod =
        countKey r.nodes etId st geo mod := by
  induction specs with
  | nil => intro r cnt _; rfl
  | cons spec rest ih =>
    intro r cnt h
    obtain ⟨st', kw⟩ := spec
    simp only [clusterSpokes]
    by_cases hc : (check_page_exists etId st' none none none r.nodes).isSome
    · rw [if_pos hc]; exact ih r cnt h
    · rw [if_neg hc]
      have hc0 : countKey r.nodes etId st' none none = 0 := by
        rw [← check_page_exists_eq_none_iff]
        exact Option.not_isSome_iff_eq_none.mp hc
      have hck := countKey_create_spoke etId name st' kw none none none hub 0 0 r
        st geo mod hst
      have hmatch : (decide (st' = st) &&
          (if optTruthy geo then decide ((none : Option String) = geo)
           else decide ((none : Option String) = none)) &&
          (if optTruthy mod then decide ((none : Option String) = mod)
           else decide ((none : Option String) = none))) = false := by
        by_cases h1 : st' = st
        · subst h1
          by_cases hg : optTruthy geo
          · by_cases hgn : (none : Option String) = geo
            · rw [← hgn] at hg; simp [optTruthy_none] at hg
            · simp [hg, hgn]
          · by_cases hm : optTruthy mod
            · by_cases hmn : (none : Option String) = mod
              · rw [← hmn] at hm; simp [optTruthy_none] at hm
              · simp [hg, hm, hmn]
            · -- all non-truthy: countKey K r = countKey (none none) = 0 contra h
              exfalso
              have := countKey_nonTruthy r.nodes etId st' geo mod
                (by simpa using hg) (by simpa using hm)
              omega
        · simp [h1]
      rw [hmatch] at hck
      simp only [if_false, Bool.false_eq_true, Nat.add_zero] at hck
      have h' : 1 ≤ countKey (create_spoke_page etId name st' kw none none none hub
          0 0 r).2.nodes etId st geo mod := by omega
      rw [ih _ (cnt + 1) h', hck]

theorem clusterSpokes_countKey_le_one (etId : Nat) (name : String) (hub : Option Nat)
    (specs : List (String × String)) (st : String) (geo mod : Option String)
    (hst : st ≠ "hub") :
    ∀ (r : Registry) (cnt : Nat), countKey r.nodes etId st geo mod = 0 →
      countKey (clusterSpokes etId name hub specs r cnt).1.nodes etId st geo mod ≤ 1 := by
  induction specs with
  | nil => intro r cnt h; simp [clusterSpokes, h]
  | cons spec rest ih =>
    intro r cnt h
    obtain ⟨st', kw⟩ := spec
    simp only [clusterSpokes]
    by_cases hc : (check_page_exists etId st' none none none r.nodes).isSome
    · rw [if_pos hc]; exact ih r cnt h
    · rw [if_neg hc]
      have hck := countKey_create_spoke etId name st' kw none none none hub 0 0 r
        st geo mod hst
      by_cases hmatch : (decide (st' = st) &&
          (if optTruthy geo then decide ((none : Option String) = geo)
           else decide ((none : Option String) = none)) &&
          (if optTruthy mod then decide ((none : Option String) = mod)
           else decide ((none : Option String) = none))) = true
      · rw [hmatch] at hck
        simp only [if_true, h, Nat.zero_add] at hck
        have := clusterSpokes_countKey_pres etId name hub rest st geo mod hst
          (create_spoke_page etId name st' kw none none none hub 0 0 r).2 (cnt + 1)
          (by omega)
        omega
      · rw [Bool.not_eq_true] at hmatch
        rw [hmatch] at hck
        simp only [Bool.false_eq_true, if_false, Nat.add_zero] at hck
        exact ih _ (cnt + 1) (by omega)

theorem get_or_create_nodes (nm : String) (r : Registry) :
    (get_or_create_equipment_type nm r).2.nodes = r.nodes := by
  simp only [get_or_create_equipment_type]
  cases (r.etypes.find? (fun et => et.slug = generate_url_slug nm)) <;> simp

theorem cluster_countKey_pres (etId : Nat) (name : String) (r : Registry)
    (st : String) (geo mod : Option String) (hst : st ≠ "hub")
    (h1 : 1 ≤ countKey r.nodes etId st geo mod) :
    countKey (create_equipment_cluster etId name r).2.nodes etId st geo mod =
      countKey r.nodes etId st geo mod := by
  simp only [create_equipment_cluster]
  cases hf : (findHub etId r.nodes).map (fun n => n.id) with
  | some h =>
    simp only
    exact clusterSpokes_countKey_pres etId name (some h) _ st geo mod hst r 0 h1
  | none =>
    simp only
    have hhub : countKey (r.nodes ++ [hubNodeOf etId name r.nextId]) etId st geo mod =
        countKey r.nodes etId st geo mod := by
      rw [countKey_append]
      rw [matchesKey_spoke_none_false etId st geo mod none _ hst rfl]
      simp
    rw [clusterSpokes_countKey_pres etId name _ _ st geo mod hst _ 0 (by
      simp only [hhub]
      exact h1)]
    exact hhub

theorem cluster_countKey_le_one (etId : Nat) (name : String) (r : Registry)
    (st : String) (geo mod : Option String) (hst : st ≠ "hub")
    (h0 : countKey r.nodes etId st geo mod = 0) :
    countKey (create_equipment_cluster etId name r).2.nodes etId st geo mod ≤ 1 := by
  simp only [create_equipment_cluster]
  cases hf : (findHub etId r.nodes).map (fun n => n.id) with
  | some h =>
    simp only
    exact clusterSpokes_countKey_le_one etId name (some h) _ st geo mod hst r 0 h0
  | none =>
    simp only
    have hhub : countKey (r.nodes ++ [hubNodeOf etId name r.nextId]) etId st geo mod =
        countKey r.nodes etId st geo mod := by
      rw [countKey_append]
      rw [matchesKey_spoke_none_false etId st geo mod none _ hst rfl]
      simp
    refine clusterSpokes_countKey_le_one etId name _ _ st geo mod hst _ 0 ?_
    rw [hhub]
    exact h0

theorem decide_none_eq_false (geo : Option String) (hg : optTruthy geo = true) :
    decide ((none : Option String) = geo) = false := by
  cases geo with
  | none => simp [optTruthy] at hg
  | some g => simp

theorem clusterSpokes_countKey_truthy (etId : Nat) (name : String)
    (hub : Option Nat) (specs : List (String × String)) (st : String)
    (geo mod : Option String) (hst : st ≠ "hub") (hg : optTruthy geo = true) :
    ∀ (r : Registry) (cnt : Nat),
      countKey (clusterSpokes etId name hub specs r cnt).1.nodes etId st geo mod =
        countKey r.nodes etId st geo mod := by
  induction specs with
  | nil => intro r cnt; rfl
  | cons spec rest ih =>
    intro r cnt
    obtain ⟨st', kw⟩ := spec
    simp only [clusterSpokes]
    by_cases hc : (check_page_exists etId st' none none none r.nodes).isSome
    · rw [if_pos hc]; exact ih r cnt
    · rw [if_neg hc]
      have hck := countKey_create_spoke etId name st' kw none none none hub 0 0 r
        st geo mod hst
      rw [hg] at hck
      simp only [if_true, decide_none_eq_false geo hg, Bool.and_false,
        Bool.false_and, Bool.false_eq_true, if_false, Nat.add_zero] at hck
      rw [ih _ (cnt + 1), hck]

theorem cluster_countKey_truthy (etId : Nat) (name : String) (r : Registry)
    (st : String) (geo mod : Option String) (hst : st ≠ "hub")
    (hg : optTruthy geo = true) :
    countKey (create_equipment_cluster etId name r).2.nodes etId st geo mod =
      countKey r.nodes etId st geo mod := by
  simp only [create_equipment_cluster]
  cases hf : (findHub etId r.nodes).map (fun n => n.id) with
  | some h =>
    simp only
    exact clusterSpokes_countKey_truthy etId name (some h) _ st geo mod hst hg r 0
  | none =>
    simp only
    rw [clusterSpokes_countKey_truthy etId name _ _ st geo mod hst hg _ 0]
    rw [countKey_append]
    rw [matchesKey_spoke_none_false etId st geo mod none _ hst rfl]
    simp

theorem adhoc_match_true (c : ClassifiedKeyword) (hgeo : c.geo ≠ some "")
    (hmod : c.modifier ≠ some "") :
    (decide (c.spoke_type = c.spoke_type) &&
     (if optTruthy c.geo then decide (c.geo = c.geo) else decide (c.geo = none)) &&
     (if optTruthy c.modifier then decide (c.modifier = c.modifier)
      else decide (c.modifier = none))) = true := by
  have hg : (if optTruthy c.geo then decide (c.geo = c.geo)
      else decide (c.geo = none)) = true := by
    by_cases h : optTruthy c.geo
    · simp [h]
    · have : c.geo = none := by
        cases hcg : c.geo with
        | none => rfl
        | some g =>
          rw [hcg] at h
          simp [optTruthy] at h
          subst h
          exact absurd hcg hgeo
      simp [h, this]
  have hm : (if optTruthy c.modifier then decide (c.modifier = c.modifier)
      else decide (c.modifier = none)) = true := by
    by_cases h : optTruthy c.modifier
    · simp [h]
    · have : c.modifier = none := by
        cases hcm : c.modifier with
        | none => rfl
        | some m =>
          rw [hcm] at h
          simp [optTruthy] at h
          subst h
          exact absurd hcm hmod
      simp [h, this]
  rw [hg, hm]
  simp

/-- Claim C1: for every classified non-hub keyword (with the classifier's
guarantee that geo/modifier are never empty strings), `decide_and_queue`
creates a spoke node for the dedup key `(equipment_type_id, spoke_type,
geo-or-null, modifier-or-null)` exactly when no row matched it before the
call (the key count goes 0 to 1, whether the node comes from the default
cluster or the ad-hoc creation), a request whose key already exists
creates nothing for that key and reports `pages_skipped = 1`, and keys
with a different (truthy) geo are untouched — so two requests differing
only in geo create two distinct nodes. -/
theorem decide_and_queue_dedup (r : Registry) (c : ClassifiedKeyword) (volume kd : Int)
    (hst : c.spoke_type ≠ "hub") (hgeo : c.geo ≠ some "") (hmod : c.modifier ≠ some "") :
    (countKey r.nodes (get_or_create_equipment_type c.equipment_type r).1
        c.spoke_type c.geo c.modifier = 0 →
      countKey (decide_and_queue c volume kd r).2.nodes
        (get_or_create_equipment_type c.equipment_type r).1
        c.spoke_type c.geo c.modifier = 1) ∧
    (1 ≤ countKey r.nodes (get_or_create_equipment_type c.equipment_type r).1
        c.spoke_type c.geo c.modifier →
      countKey (decide_and_queue c volume kd r).2.nodes
          (get_or_create_equipment_type c.equipment_type r).1
          c.spoke_type c.geo c.modifier =
        countKey r.nodes (get_or_create_equipment_type c.equipment_type r).1
          c.spoke_type c.geo c.modifier ∧
      (decide_and_queue c volume kd r).1.pages_skipped = 1) ∧
    (∀ (st' : String) (g' m' : Option String), st' ≠ "hub" → optTruthy g' = true →
      g' ≠ c.geo →
      countKey (decide_and_queue c volume kd r).2.nodes
          (get_or_create_equipment_type c.equipment_type r).1 st' g' m' =
        countKey r.nodes (get_or_create_equipment_type c.equipment_type r).1 st' g' m') := by
  have hr₁ : (get_or_create_equipment_type c.equipment_type r).2.nodes = r.nodes :=
    get_or_create_nodes c.equipment_type r
  simp only [decide_and_queue]
  rw [if_neg (fun h => hst h.1)]
  rw [if_pos hst]
  by_cases hhub : check_page_exists (get_or_create_equipment_type c.equipment_type r).1
      "hub" none none none (get_or_create_equipment_type c.equipment_type r).2.nodes = none
  · simp only [if_pos hhub]
    cases hsp : check_page_exists (get_or_create_equipment_type c.equipment_type r).1
        c.spoke_type c.geo c.modifier none
        (create_equipment_cluster (get_or_create_equipment_type c.equipment_type r).1
          c.equipment_type (get_or_create_equipment_type c.equipment_type r).2).2.nodes with
    | some nid =>
      simp only [hsp]
      rw [check_page_exists_eq_none_iff] at hhub
      refine ⟨?_, ?_, ?_⟩
      · intro h0
        have hle := cluster_countKey_le_one _ c.equipment_type _ c.spoke_type c.geo
          c.modifier hst (by rw [hr₁]; exact h0)
        have hge : 1 ≤ countKey (create_equipment_cluster
            (get_or_create_equipment_type c.equipment_type r).1 c.equipment_type
            (get_or_create_equipment_type c.equipment_type r).2).2.nodes
            (get_or_create_equipment_type c.equipment_type r).1
            c.spoke_type c.geo c.modifier := by
          rw [← check_page_exists_isSome_iff, hsp]
          rfl
        omega
      · intro h1
        have := cluster_countKey_pres _ c.equipment_type _ c.spoke_type c.geo
          c.modifier hst (by rw [hr₁]; exact h1)
        rw [hr₁] at this
        exact ⟨this, trivial⟩
      · intro st' g' m' hst' hg' hne
        have := cluster_countKey_truthy (get_or_create_equipment_type c.equipment_type r).1
          c.equipment_type (get_or_create_equipment_type c.equipment_type r).2
          st' g' m' hst' hg'
        rw [hr₁] at this
        exact this
    | none =>
      simp only [hsp]
      rw [check_page_exists_eq_none_iff] at hsp hhub
      refine ⟨?_, ?_, ?_⟩
      · intro h0
        rw [countKey_create_spoke _ _ _ _ _ _ _ _ _ _ _ _ _ _ hst]
        rw [adhoc_match_true c hgeo hmod]
        simp only [if_true, hsp]
      · intro h1
        exfalso
        have := cluster_countKey_pres _ c.equipment_type _ c.spoke_type c.geo
          c.modifier hst (by rw [hr₁]; exact h1)
        rw [hr₁] at this
        omega
      · intro st' g' m' hst' hg' hne
        rw [countKey_create_spoke _ _ _ _ _ _ _ _ _ _ _ _ _ _ hst']
        have hgm : (if optTruthy g' then decide (c.geo = g') else decide (c.geo = none)) =
            decide (c.geo = g') := by rw [if_pos hg']
        rw [hgm]
        have : decide (c.geo = g') = false := by
          simp [Ne.symm hne]
        rw [this]
        simp only [Bool.and_false, Bool.false_and, Bool.false_eq_true, if_false,
          Nat.add_zero]
        have := cluster_countKey_truthy (get_or_create_equipment_type c.equipment_type r).1
          c.equipment_type (get_or_create_equipment_type c.equipment_type r).2
          st' g' m' hst' hg'
        rw [hr₁] at this
        exact this
  · simp only [if_neg hhub]
    cases hsp : check_page_exists (get_or_create_equipment_type c.equipment_type r).1
        c.spoke_type c.geo c.modifier none
        (get_or_create_equipment_type c.equipment_type r).2.nodes with
    | some nid =>
      simp only [hsp]
      refine ⟨?_, ?_, ?_⟩
      · intro h0
        exfalso
        have hge : 1 ≤ countKey (get_or_create_equipment_type c.equipment_type r).2.nodes
            (get_or_create_equipment_type c.equipment_type r).1
            c.spoke_type c.geo c.modifier := by
          rw [← check_page_exists_isSome_iff, hsp]
          rfl
        rw [hr₁] at hge
        omega
      · intro h1
        rw [hr₁]
        exact ⟨rfl, trivial⟩
      · intro st' g' m' hst' hg' hne
        rw [hr₁]
    | none =>
      simp only [hsp]
      rw [check_page_exists_eq_none_iff, hr₁] at hsp
      refine ⟨?_, ?_, ?_⟩
      · intro h0
        rw [countKey_create_spoke _ _ _ _ _ _ _ _ _ _ _ _ _ _ hst]
        rw [adhoc_match_true c hgeo hmod]
        simp only [if_true, hr₁, hsp]
      · intro h1
        omega
      · intro st' g' m' hst' hg' hne
        rw [countKey_create_spoke _ _ _ _ _ _ _ _ _ _ _ _ _ _ hst']
        have hgm : (if optTruthy g' then decide (c.geo = g') else decide (c.geo = none)) =
            decide (c.geo = g') := by rw [if_pos hg']
        rw [hgm]
        have : decide (c.geo = g') = false := by
          simp [Ne.symm hne]
        rw [this]
        simp only [Bool.and_false, Bool.false_and, Bool.false_eq_true, if_false,
          Nat.add_zero]
        rw [hr₁]

def wEmptyReg : Registry := ⟨[], [], 0⟩

def ckFin : ClassifiedKeyword :=
  ⟨"excavator financing", "excavator", none, none, none, "financing", "spoke"⟩

def ckGeo : ClassifiedKeyword :=
  ⟨"excavator financing texas", "excavator", some "texas", none, none, "financing", "spoke"⟩

def wReg1 : Registry := (decide_and_queue ckFin 100 10 wEmptyReg).2

def wReg2 : Registry := (decide_and_queue ckGeo 50 10 wReg1).2

/-- Witness for C1, on the spec's own example: from an empty registry,
"excavator financing" then "excavator financing texas" yield one node per
key (both keys populated, distinct), and repeating the texas request is
reported skipped and creates nothing. -/
theorem decide_and_queue_dedup_witness :
    countKey wReg1.nodes (get_or_create_equipment_type ckGeo.equipment_type wReg1).1
      ckGeo.spoke_type ckGeo.geo ckGeo.modifier = 0 ∧
    countKey wReg2.nodes (get_or_create_equipment_type ckGeo.equipment_type wReg1).1
      ckGeo.spoke_type ckGeo.geo ckGeo.modifier = 1 ∧
    countKey wReg2.nodes (get_or_create_equipment_type ckGeo.equipment_type wReg1).1
      "financing" none none = 1 ∧
    (decide_and_queue ckGeo 50 10 wReg2).1.pages_skipped = 1 ∧
    countKey (decide_and_queue ckGeo 50 10 wReg2).2.nodes
      (get_or_create_equipment_type ckGeo.equipment_type wReg2).1
      ckGeo.spoke_type ckGeo.geo ckGeo.modifier = 1 := by
  refine ⟨by decide, ?_, by decide, ?_, ?_⟩
  · exact (decide_and_queue_dedup wReg1 ckGeo 50 10 (by decide) (by decide)
      (by decide)).1 (by decide)
  · exact ((decide_and_queue_dedup wReg2 ckGeo 50 10 (by decide) (by decide)
      (by decide)).2.1 (by decide)).2
  · have h := ((decide_and_queue_dedup wReg2 ckGeo 50 10 (by decide) (by decide)
      (by decide)).2.1 (by decide)).1
    rw [h]
    decide

/-! ## Hub-before-spoke invariant (I2) -/

/-- Invariants I1 (hub part) and I2 over the node table: at most one hub
row per equipment type, and every spoke's `parent_hub_id` names an
existing hub row of the same equipment type. -/
def wfNodes (nodes : List Node) : Prop :=
  (∀ n ∈ nodes, ∀ m ∈ nodes, n.page_category = "hub" → m.page_category = "hub" →
    n.equipment_type_id = m.equipment_type_id → n = m) ∧
  (∀ n ∈ nodes, n.page_category = "spoke" →
    ∃ h ∈ nodes, h.page_category = "hub" ∧
      h.equipment_type_id = n.equipment_type_id ∧ n.parent_hub_id = some h.id)

instance (nodes : List Node) : Decidable (wfNodes nodes) := by
  unfold wfNodes
  infer_instance

theorem wf_append_spoke (nodes : List Node) (n : Node) (hwf : wfNodes nodes)
    (hcat : n.page_category = "spoke")
    (hpar : ∃ h ∈ nodes, h.page_category = "hub" ∧
      h.equipment_type_id = n.equipment_type_id ∧ n.parent_hub_id = some h.id) :
    wfNodes (nodes ++ [n]) := by
  constructor
  · intro a ha b hb hah hbh hab
    rw [List.mem_append, List.mem_singleton] at ha hb
    rcases ha with ha | ha
    · rcases hb with hb | hb
      · exact hwf.1 a ha b hb hah hbh hab
      · subst hb; rw [hcat] at hbh; simp at hbh
    · subst ha; rw [hcat] at hah; simp at hah
  · intro a ha hasp
    rw [List.mem_append, List.mem_singleton] at ha
    rcases ha with ha | ha
    · obtain ⟨h, hh, hprops⟩ := hwf.2 a ha hasp
      exact ⟨h, List.mem_append_left _ hh, hprops⟩
    · subst ha
      obtain ⟨h, hh, hprops⟩ := hpar
      exact ⟨h, List.mem_append_left _ hh, hprops⟩

theorem wf_append_hub (nodes : List Node) (h₀ : Node) (hwf : wfNodes nodes)
    (hcat : h₀.page_category = "hub")
    (hnone : ∀ m ∈ nodes, m.page_category = "hub" →
      m.equipment_type_id ≠ h₀.equipment_type_id) :
    wfNodes (nodes ++ [h₀]) := by
  constructor
  · intro a ha b hb hah hbh hab
    rw [List.mem_append, List.mem_singleton] at ha hb
    rcases ha with ha | ha
    · rcases hb with hb | hb
      · exact hwf.1 a ha b hb hah hbh hab
      · subst hb; exact absurd hab (hnone a ha hah)
    · subst ha
      rcases hb with hb | hb
      · exact absurd hab.symm (hnone b hb hbh)
      · subst hb; rfl
  · intro a ha hasp
    rw [List.mem_append, List.mem_singleton] at ha
    rcases ha with ha | ha
    · obtain ⟨h, hh, hprops⟩ := hwf.2 a ha hasp
      exact ⟨h, List.mem_append_left _ hh, hprops⟩
    · subst ha; rw [hcat] at hasp; simp at hasp

theorem findHub_some_props (etId : Nat) (nodes : List Node) (h : Node)
    (hf : findHub etId nodes = some h) :
    h ∈ nodes ∧ h.page_category = "hub" ∧ h.equipment_type_id = etId := by
  have hmem : h ∈ nodes.filter (fun n => n.equipment_type_id = etId ∧ n.page_category = "hub") :=
    List.mem_of_mem_head? (by rw [← findHub, hf]; rfl)
  rw [List.mem_filter] at hmem
  have hp := hmem.2
  simp only [decide_eq_true_eq] at hp
  exact ⟨hmem.1, hp.2, hp.1⟩

theorem findHub_none_props (etId : Nat) (nodes : List Node)
    (hf : findHub etId nodes = none) :
    ∀ m ∈ nodes, m.page_category = "hub" → m.equipment_type_id ≠ etId := by
  intro m hm hcat heq
  rw [findHub, List.head?_eq_none_iff, List.filter_eq_nil_iff] at hf
  exact hf m hm (by simp [heq, hcat])

theorem exists_hub_findHub (etId : Nat) (nodes : List Node)
    (hex : ∃ h ∈ nodes, h.page_category = "hub" ∧ h.equipment_type_id = etId) :
    ∃ h', findHub etId nodes = some h' ∧ h' ∈ nodes ∧
      h'.page_category = "hub" ∧ h'.equipment_type_id = etId := by
  obtain ⟨h, hh, hcat, het⟩ := hex
  cases hf : findHub etId nodes with
  | none => exact absurd het (findHub_none_props etId nodes hf h hh hcat)
  | some h' => exact ⟨h', rfl, findHub_some_props etId nodes h' hf⟩

theorem check_hub_isSome_exists (etId : Nat) (nodes : List Node)
    (hs : check_page_exists etId "hub" none none none nodes ≠ none) :
    ∃ h ∈ nodes, h.page_category = "hub" ∧ h.equipment_type_id = etId := by
  simp only [check_page_exists, ne_eq, Option.map_eq_none', List.head?_eq_none_iff] at hs
  have : ∃ h, (nodes.filter (matchesKey etId "hub" none none none)).head? = some h := by
    cases hh : (nodes.filter (matchesKey etId "hub" none none none)).head? with
    | none => exact absurd (List.head?_eq_none_iff.mp hh) hs
    | some h => exact ⟨h, rfl⟩
  obtain ⟨h, hh⟩ := this
  have hmem := List.mem_of_mem_head? (by rw [hh]; rfl)
  rw [List.mem_filter] at hmem
  have hp := hmem.2
  simp only [matchesKey, Bool.and_eq_true, decide_eq_true_eq, if_true, eq_self_iff_true] at hp
  exact ⟨h, hmem.1, hp.1.1.1.2, hp.1.1.1.1⟩

theorem wf_create_spoke (etId : Nat) (name st kw : String) (geo mod : Option String)
    (b parent : Option Nat) (v k : Int) (r : Registry) (hwf : wfNodes r.nodes)
    (hparent : match parent with
      | some p => ∃ h ∈ r.nodes, h.page_category = "hub" ∧
          h.equipment_type_id = etId ∧ p = h.id
      | none => ∃ h ∈ r.nodes, h.page_category = "hub" ∧ h.equipment_type_id = etId) :
    wfNodes (create_spoke_page etId name st kw geo mod b parent v k r).2.nodes := by
  simp only [create_spoke_page]
  apply wf_append_spoke _ _ hwf rfl
  cases parent with
  | some p =>
    obtain ⟨h, hh, hcat, het, hp⟩ := hparent
    exact ⟨h, hh, hcat, het, by simp [hp]⟩
  | none =>
    obtain ⟨h', hf, hh', hcat', het'⟩ := exists_hub_findHub etId r.nodes hparent
    exact ⟨h', hh', hcat', het', by simp [hf]⟩

theorem clusterSpokes_mem (etId : Nat) (name : String) (hub : Option Nat)
    (specs : List (String × String)) :
    ∀ (r : Registry) (cnt : Nat) (n : Node), n ∈ r.nodes →
      n ∈ (clusterSpokes etId name hub specs r cnt).1.nodes := by
  induction specs with
  | nil => intro r cnt n hn; exact hn
  | cons spec rest ih =>
    intro r cnt n hn
    obtain ⟨st', kw⟩ := spec
    simp only [clusterSpokes]
    by_cases hc : (check_page_exists etId st' none none none r.nodes).isSome
    · rw [if_pos hc]; exact ih r cnt n hn
    · rw [if_neg hc]
      exact ih _ (cnt + 1) n (by simp only [create_spoke_page]; exact List.mem_append_left _ hn)

theorem clusterSpokes_wf (etId : Nat) (name : String) (hid : Nat)
    (specs : List (String × String)) :
    ∀ (r : Registry) (cnt : Nat), wfNodes r.nodes →
      (∃ h ∈ r.nodes, h.page_category = "hub" ∧ h.equipment_type_id = etId ∧ hid = h.id) →
      wfNodes (clusterSpokes etId name (some hid) specs r cnt).1.nodes := by
  induction specs with
  | nil => intro r cnt hwf _; exact hwf
  | cons spec rest ih =>
    intro r cnt hwf hex
    obtain ⟨st', kw⟩ := spec
    simp only [clusterSpokes]
    by_cases hc : (check_page_exists etId st' none none none r.nodes).isSome
    · rw [if_pos hc]; exact ih r cnt hwf hex
    · rw [if_neg hc]
      refine ih _ (cnt + 1) ?_ ?_
      · exact wf_create_spoke etId name st' kw none none none (some hid) 0 0 r hwf hex
      · obtain ⟨h, hh, hprops⟩ := hex
        exact ⟨h, by simp only [create_spoke_page]; exact List.mem_append_left _ hh, hprops⟩

theorem cluster_wf (etId : Nat) (name : String) (r : Registry) (hwf : wfNodes r.nodes) :
    wfNodes (create_equipment_cluster etId name r).2.nodes := by
  simp only [create_equipment_cluster]
  cases hf : (findHub etId r.nodes) with
  | some h =>
    simp only [Option.map_some']
    obtain ⟨hh, hcat, het⟩ := findHub_some_props etId r.nodes h hf
    exact clusterSpokes_wf etId name h.id _ r 0 hwf ⟨h, hh, hcat, het, rfl⟩
  | none =>
    simp only [Option.map_none']
    refine clusterSpokes_wf etId name r.nextId _ _ 0 ?_ ?_
    · exact wf_append_hub r.nodes (hubNodeOf etId name r.nextId) hwf rfl
        (findHub_none_props etId r.nodes hf)
    · exact ⟨hubNodeOf etId name r.nextId,
        List.mem_append_right _ (List.mem_singleton_self _), rfl, rfl, rfl⟩

theorem cluster_has_hub (etId : Nat) (name : String) (r : Registry) :
    ∃ h ∈ (create_equipment_cluster etId name r).2.nodes,
      h.page_category = "hub" ∧ h.equipment_type_id = etId := by
  simp only [create_equipment_cluster]
  cases hf : (findHub etId r.nodes) with
  | some h =>
    simp only [Option.map_some']
    obtain ⟨hh, hcat, het⟩ := findHub_some_props etId r.nodes h hf
    exact ⟨h, clusterSpokes_mem etId name (some h.id) _ r 0 h hh, hcat, het⟩
  | none =>
    simp only [Option.map_none']
    refine ⟨hubNodeOf etId name r.nextId, ?_, rfl, rfl⟩
    refine clusterSpokes_mem etId name (some r.nextId) _ _ 0 _ ?_
    exact List.mem_append_right _ (List.mem_singleton_self _)

/-- Claim C3: processing any classified keyword preserves the registry
invariants — at most one hub per equipment type, and every persisted spoke
carries a `parent_hub_id` referring to an existing hub of the same
equipment type; moreover, when no hub exists for the keyword's equipment
type, the call leaves the registry with a hub for it (created via the
cluster builder before the keyword's own spoke, whose parent it becomes).
-/
theorem hub_before_spoke_invariant (r : Registry) (c : ClassifiedKeyword)
    (volume kd : Int) (hwf : wfNodes r.nodes) :
    wfNodes (decide_and_queue c volume kd r).2.nodes ∧
    (check_page_exists (get_or_create_equipment_type c.equipment_type r).1 "hub"
        none none none r.nodes = none →
      ∃ h ∈ (decide_and_queue c volume kd r).2.nodes,
        h.page_category = "hub" ∧
        h.equipment_type_id = (get_or_create_equipment_type c.equipment_type r).1) := by
  have hr₁ : (get_or_create_equipment_type c.equipment_type r).2.nodes = r.nodes :=
    get_or_create_nodes c.equipment_type r
  have hwf₁ : wfNodes (get_or_create_equipment_type c.equipment_type r).2.nodes := by
    rw [hr₁]; exact hwf
  simp only [decide_and_queue]
  by_cases hA : c.spoke_type = "hub" ∧
      check_page_exists (get_or_create_equipment_type c.equipment_type r).1 "hub"
        none none none (get_or_create_equipment_type c.equipment_type r).2.nodes = none
  · rw [if_pos hA]
    exact ⟨cluster_wf _ c.equipment_type _ hwf₁,
      fun _ => cluster_has_hub _ c.equipment_type _⟩
  · rw [if_neg hA]
    by_cases hhub : check_page_exists (get_or_create_equipment_type c.equipment_type r).1
        "hub" none none none (get_or_create_equipment_type c.equipment_type r).2.nodes = none
    · have hst' : c.spoke_type ≠ "hub" := fun h => hA ⟨h, hhub⟩
      simp only [if_pos hhub, if_pos hst']
      cases hsp : check_page_exists (get_or_create_equipment_type c.equipment_type r).1
          c.spoke_type c.geo c.modifier none
          (create_equipment_cluster (get_or_create_equipment_type c.equipment_type r).1
            c.equipment_type (get_or_create_equipment_type c.equipment_type r).2).2.nodes with
      | some nid =>
        simp only [hsp]
        exact ⟨cluster_wf _ c.equipment_type _ hwf₁,
          fun _ => cluster_has_hub _ c.equipment_type _⟩
      | none =>
        simp only [hsp]
        constructor
        · exact wf_create_spoke _ c.equipment_type c.spoke_type c.original_keyword
            c.geo c.modifier none none volume kd _
            (cluster_wf _ c.equipment_type _ hwf₁)
            (cluster_has_hub _ c.equipment_type _)
        · intro _
          obtain ⟨h, hh, hprops⟩ := cluster_has_hub
            (get_or_create_equipment_type c.equipment_type r).1 c.equipment_type
            (get_or_create_equipment_type c.equipment_type r).2
          exact ⟨h, by simp only [create_spoke_page]; exact List.mem_append_left _ hh,
            hprops⟩
    · simp only [if_neg hhub]
      have hvac : ¬(check_page_exists (get_or_create_equipment_type c.equipment_type r).1
          "hub" none none none r.nodes = none) := by rw [← hr₁]; exact hhub
      have hexhub := check_hub_isSome_exists
        (get_or_create_equipment_type c.equipment_type r).1
        (get_or_create_equipment_type c.equipment_type r).2.nodes hhub
      by_cases hstq : c.spoke_type ≠ "hub"
      · rw [if_pos hstq]
        cases hsp : check_page_exists (get_or_create_equipment_type c.equipment_type r).1
            c.spoke_type c.geo c.modifier none
            (get_or_create_equipment_type c.equipment_type r).2.nodes with
        | some nid =>
          simp only [hsp]
          exact ⟨hwf₁, fun habs => absurd habs hvac⟩
        | none =>
          simp only [hsp]
          refine ⟨?_, fun habs => absurd habs hvac⟩
          exact wf_create_spoke _ c.equipment_type c.spoke_type c.original_keyword
            c.geo c.modifier none none volume kd _ hwf₁ hexhub
      · rw [if_neg hstq]
        exact ⟨hwf₁, fun habs => absurd habs hvac⟩

/-- Witness for C3: from the empty registry (trivially well-formed, no
hub), processing "excavator financing" yields a well-formed registry
containing a hub for the new equipment type. -/
theorem hub_before_spoke_invariant_witness :
    wfNodes wEmptyReg.nodes ∧
    wfNodes (decide_and_queue ckFin 100 10 wEmptyReg).2.nodes ∧
    check_page_exists (get_or_create_equipment_type ckFin.equipment_type wEmptyReg).1
      "hub" none none none wEmptyReg.nodes = none ∧
    ∃ h ∈ (decide_and_queue ckFin 100 10 wEmptyReg).2.nodes,
      h.page_category = "hub" ∧
      h.equipment_type_id = (get_or_create_equipment_type ckFin.equipment_type wEmptyReg).1 :=
  ⟨by decide, (hub_before_spoke_invariant wEmptyReg ckFin 100 10 (by decide)).1,
   by decide,
   (hub_before_spoke_invariant wEmptyReg ckFin 100 10 (by decide)).2 (by decide)⟩

end SEI
